import Mathlib

/-!
Verification development for the gankenkun bipedal walking controller
(`WalkingManager` in src/gankenkun/walking/node/walking_manager.cpp and
`Kinematics` in src/gankenkun/walking/kinematics/kinematics.cpp).

Modelling conventions:
* C++ `double` arithmetic in the gait controller is modelled over `ℚ`
  (every operation the controller performs on doubles is field arithmetic,
  `std::round`, `std::max` and comparisons); the analytic IK solver, which
  uses `sqrt`, `atan2`, `hypot` and `acos`, is modelled over `ℝ`.
  Division by zero follows Lean's `x / 0 = 0` convention.
* The two collaborators that the spec declares external (the footstep
  planner's `plan` and the CoM trajectory generator `lipm.update`) are
  passed in as oracle functions; the footstep queue and the CoM sample
  sequence they maintain are carried in the controller state.
* An out-of-bounds `operator[]` access on the footstep queue (undefined
  behaviour in C++) makes the modelled operation return `none`; guarded
  accesses (those the code performs only after a size check) use `getD`.
* A thrown C++ exception from the IK step is an `Option.none` result of the
  solver argument; the `try/catch` of `update_joints` corresponds to
  `Option.getD` with the previous angle array.
* The json configuration documents are modelled as association lists from an
  enumerated key type to sections / rational values; `jitsuyo::assign_val`
  (an external library helper) becomes an association-list lookup that
  assigns the target on success and leaves it unchanged on failure.
-/

/-- Walking status constants of `FootStepPlanner` (`START` / `WALKING`). -/
inductive Status where
  | start : Status
  | walking : Status
deriving DecidableEq

/-- Support-foot labels of `FootStepPlanner`
(`LEFT_FOOT` / `RIGHT_FOOT` / `BOTH_FEET`). -/
inductive SupportFoot where
  | leftFoot : SupportFoot
  | rightFoot : SupportFoot
  | bothFeet : SupportFoot
deriving DecidableEq

/-- Joint identifiers of `tachimawari::joint::JointId` that the walking code
touches: the two head joints and the seven joints of each leg. -/
inductive JointId where
  | NECK_YAW | NECK_PITCH
  | LEFT_HIP_YAW | LEFT_HIP_ROLL | LEFT_HIP_PITCH
  | LEFT_UPPER_KNEE | LEFT_LOWER_KNEE | LEFT_ANKLE_PITCH | LEFT_ANKLE_ROLL
  | RIGHT_HIP_YAW | RIGHT_HIP_ROLL | RIGHT_HIP_PITCH
  | RIGHT_UPPER_KNEE | RIGHT_LOWER_KNEE | RIGHT_ANKLE_PITCH | RIGHT_ANKLE_ROLL
deriving DecidableEq

/-- A 2-d point (`keisan::Point2`). -/
structure Point2q where
  x : ℚ
  y : ℚ
deriving DecidableEq

/-- A `keisan::Matrix<1, 3>` holding (x, y, yaw-in-radians), as the controller
uses it for foot offsets, deltas and targets. -/
structure Pose3 where
  x : ℚ
  y : ℚ
  a : ℚ
deriving DecidableEq

/-- Componentwise matrix addition (`keisan::Matrix` `operator+`). -/
def Pose3.add (p q : Pose3) : Pose3 := ⟨p.x + q.x, p.y + q.y, p.a + q.a⟩

/-- Componentwise matrix subtraction (`keisan::Matrix` `operator-`). -/
def Pose3.sub (p q : Pose3) : Pose3 := ⟨p.x - q.x, p.y - q.y, p.a - q.a⟩

/-- Division of a matrix by a scalar (`keisan::Matrix` `operator/`). -/
def Pose3.scaleDiv (p : Pose3) (k : ℚ) : Pose3 := ⟨p.x / k, p.y / k, p.a / k⟩

/-- `p + c • q`, used to express the offset after `c` accumulated deltas. -/
def Pose3.addScaled (p : Pose3) (c : ℚ) (q : Pose3) : Pose3 :=
  ⟨p.x + c * q.x, p.y + c * q.y, p.a + c * q.a⟩

/-- Componentwise absolute-difference bound between two poses. -/
def Pose3.withinTol (p q : Pose3) (eps : ℚ) : Prop :=
  |p.x - q.x| ≤ eps ∧ |p.y - q.y| ≤ eps ∧ |p.a - q.a| ≤ eps

instance (p q : Pose3) (eps : ℚ) : Decidable (Pose3.withinTol p q eps) :=
  inferInstanceAs (Decidable (_ ∧ _ ∧ _))

/-- One planned footstep (`FootStepPlanner::FootStep`): 2-d position,
rotation, timestamp, support-foot label. -/
structure FootStep where
  position : Point2q
  rotation : ℚ
  time : ℚ
  support_foot : SupportFoot
deriving DecidableEq

instance : Inhabited FootStep := ⟨⟨⟨0, 0⟩, 0, 0, SupportFoot.bothFeet⟩⟩

/-- One CoM trajectory sample, as consumed by `update_joints`
(only its 2-d position is read). -/
structure CoMSample where
  x : ℚ
  y : ℚ
deriving DecidableEq

/-- A target foot pose handed to the IK solver (`Kinematics::Foot`:
3-d position plus yaw). -/
structure Foot where
  px : ℝ
  py : ℝ
  pz : ℝ
  yaw : ℝ

/-- The kinematic parameters of `Kinematics` (leg segment lengths and the
fixed hip-to-body offset). -/
structure KinConfig where
  ankle_length : ℚ
  calf_length : ℚ
  knee_length : ℚ
  thigh_length : ℚ
  x_offset : ℚ
  y_offset : ℚ
deriving DecidableEq

/-- `std::round` on a rational: round half away from zero. -/
def cround (x : ℚ) : ℚ :=
  if x < 0 then -((round (-x) : ℤ) : ℚ) else ((round x : ℤ) : ℚ)

/-- The full mutable state of a `WalkingManager`, together with the queues
owned by its collaborator members (`foot_step_planner.foot_steps` and the
LIPM CoM trajectory). Angles are radians; published joint angles are degrees. -/
structure WalkingState where
  initialized : Bool
  status : Status
  next_support : SupportFoot
  walk_rotation : ℚ
  time_step : ℚ
  dsp_duration : ℚ
  plan_period : ℚ
  step_frames : ℚ
  com_period : ℚ
  com_height : ℚ
  foot_height : ℚ
  feet_lateral : ℚ
  foot_y_offset : ℚ
  max_stride_x : ℚ
  max_stride_y : ℚ
  max_rotation : ℚ
  left_up : ℚ
  right_up : ℚ
  left_offset : Pose3
  left_offset_delta : Pose3
  left_foot_target : Pose3
  right_offset : Pose3
  right_offset_delta : Pose3
  right_foot_target : Pose3
  foot_steps : List FootStep
  com_trajectory : List CoMSample
  kin_config : KinConfig
  kin_angles : JointId → ℝ
  joints : JointId → ℝ

/-- The neutral stance offset of the left foot (`initial_left_foot`). -/
def initial_left_foot : Pose3 := ⟨-0.04360000000000016, 0.0495, 0.011499999999999982⟩

/-- The neutral stance offset of the right foot (`initial_right_foot`). -/
def initial_right_foot : Pose3 := ⟨-0.04360000000000016, -0.0495, 0.011499999999999982⟩

/-- The state built by the `WalkingManager` constructor (zeroed parameters,
`time_step = 0.01`, status `START`, next support `RIGHT_FOOT`, all joint
angles reset to zero).  Fields the constructor leaves untouched
(`com_period`, `walk_rotation`, the queues) are modelled as zero / empty. -/
def initialWalkingState : WalkingState where
  initialized := false
  status := Status.start
  next_support := SupportFoot.rightFoot
  walk_rotation := 0
  time_step := 1 / 100
  dsp_duration := 0
  plan_period := 0
  step_frames := 0
  com_period := 0
  com_height := 0
  foot_height := 0
  feet_lateral := 0
  foot_y_offset := 0
  max_stride_x := 0
  max_stride_y := 0
  max_rotation := 0
  left_up := 0
  right_up := 0
  left_offset := ⟨0, 0, 0⟩
  left_offset_delta := ⟨0, 0, 0⟩
  left_foot_target := ⟨0, 0, 0⟩
  right_offset := ⟨0, 0, 0⟩
  right_offset_delta := ⟨0, 0, 0⟩
  right_foot_target := ⟨0, 0, 0⟩
  foot_steps := []
  com_trajectory := []
  kin_config := ⟨0, 0, 0, 0, 0, 0⟩
  kin_angles := fun _ => 0
  joints := fun _ => 0

/-- The external footstep planner's `plan` member: arguments are goal
position, goal orientation, current position, current orientation, next
support, status, and the current queue; it yields the replanned queue. -/
abbrev PlanOracle :=
  Point2q → ℚ → Point2q → ℚ → SupportFoot → Status → List FootStep → List FootStep

/-- The external CoM trajectory generator's `update` member: the time of the
current footstep and the queue yield the regenerated sample sequence. -/
abbrev LipmOracle := ℚ → List FootStep → List CoMSample

/-- An IK-solving step: kinematic parameters, the current angle array and the
two foot targets yield the new angle array, or `none` for a thrown fault. -/
abbrev IKSolver := KinConfig → (JointId → ℝ) → Foot → Foot → Option (JointId → ℝ)

/-! ## The analytic leg IK solver (`Kinematics::solve_inverse_kinematics`)

Real square root and arc cosine are total functions on `ℝ`, but the C++
`std::sqrt` / `keisan::arccos` have restricted domains (a negative argument
or a ratio outside `[-1, 1]` would be a domain error / NaN).  The model
therefore routes both through domain-checked partial versions; the claim that
the code clamps every argument into the domain becomes the theorem that the
solver never returns `none`. -/

/-- `std::atan2`-style signed arctangent: `signed_arctan y x` is the argument
of the point `(x, y)` (`keisan::signed_arctan`). -/
noncomputable def signed_arctan (y x : ℝ) : ℝ := Complex.arg ⟨x, y⟩

/-- `keisan::clamp value lo hi`. -/
noncomputable def kclamp (v lo hi : ℝ) : ℝ := max lo (min v hi)

/-- Square root with its C++ domain made explicit: `none` on a negative
argument (where `std::sqrt` would raise a domain error / produce NaN). -/
noncomputable def sqrtChecked (x : ℝ) : Option ℝ :=
  if x < 0 then none else some (Real.sqrt x)

/-- Arc cosine with its C++ domain made explicit: `none` outside `[-1, 1]`. -/
noncomputable def arccosChecked (x : ℝ) : Option ℝ :=
  if x < -1 ∨ 1 < x then none else some (Real.arccos x)

/-- `Kinematics::solve_inverse_kinematics`, one leg at a time.  `ysign` is
`+1` for the left leg (`left_y = y - y_offset`, i.e. the model passes
`-y_offset` through `yoff`) — the two C++ blocks differ only in the sign of
the hip offset, the sign of the written hip pitch and the target joint ids,
which are passed in. -/
noncomputable def solveLeg (cfg : KinConfig) (foot : Foot) (yoff : ℝ)
    (idYawP idRollP idPitchP idUpperP idLowerP idAnklePitchP idAnkleRollP : JointId)
    (pitchSign : ℝ) (ang : JointId → ℝ) : Option (JointId → ℝ) :=
  let leg_x : ℝ := foot.px - (cfg.x_offset : ℚ)
  let leg_y : ℝ := foot.py + yoff
  let leg_z : ℝ :=
    ((cfg.ankle_length : ℚ) : ℝ) + ((cfg.calf_length : ℚ) : ℝ)
      + ((cfg.knee_length : ℚ) : ℝ) + ((cfg.thigh_length : ℚ) : ℝ) - foot.pz
  let x2 : ℝ := leg_x * Real.cos foot.yaw + leg_y * Real.sin foot.yaw
  let y2 : ℝ := -leg_x * Real.sin foot.yaw + leg_y * Real.cos foot.yaw
  let z2 : ℝ := leg_z - ((cfg.ankle_length : ℚ) : ℝ)
  let hip_roll : ℝ := signed_arctan y2 z2
  let r2 : ℝ := y2 * y2 + z2 * z2
  match sqrtChecked (max 0 (r2 - x2 * x2)) with
  | none => none
  | some root =>
    let z3 : ℝ := root - ((cfg.knee_length : ℚ) : ℝ)
    let pitch : ℝ := signed_arctan x2 z3
    let len : ℝ := Real.sqrt (x2 * x2 + z3 * z3)
    match arccosChecked (kclamp (len / (2 * ((cfg.thigh_length : ℚ) : ℝ))) (-1) 1) with
    | none => none
    | some knee_disp =>
      let hip_pitch : ℝ := -pitch - knee_disp
      let knee_pitch : ℝ := -pitch + knee_disp
      some <|
        Function.update (Function.update (Function.update (Function.update
          (Function.update (Function.update (Function.update ang
            idYawP foot.yaw)
            idRollP hip_roll)
            idPitchP (pitchSign * hip_pitch))
            idUpperP (-pitchSign * hip_pitch))
            idLowerP (-knee_pitch))
            idAnklePitchP 0)
            idAnkleRollP (-hip_roll)

/-- `Kinematics::solve_inverse_kinematics`: the left-leg block (hip offset
`-y_offset`, hip pitch written negated) followed by the right-leg block
(hip offset `+y_offset`, hip pitch written as is). -/
noncomputable def solve_inverse_kinematics (cfg : KinConfig) (ang : JointId → ℝ)
    (left_foot right_foot : Foot) : Option (JointId → ℝ) :=
  match solveLeg cfg left_foot (-((cfg.y_offset : ℚ) : ℝ))
      JointId.LEFT_HIP_YAW JointId.LEFT_HIP_ROLL JointId.LEFT_HIP_PITCH
      JointId.LEFT_UPPER_KNEE JointId.LEFT_LOWER_KNEE
      JointId.LEFT_ANKLE_PITCH JointId.LEFT_ANKLE_ROLL (-1) ang with
  | none => none
  | some angL =>
    solveLeg cfg right_foot (((cfg.y_offset : ℚ) : ℝ))
      JointId.RIGHT_HIP_YAW JointId.RIGHT_HIP_ROLL JointId.RIGHT_HIP_PITCH
      JointId.RIGHT_UPPER_KNEE JointId.RIGHT_LOWER_KNEE
      JointId.RIGHT_ANKLE_PITCH JointId.RIGHT_ANKLE_ROLL 1 angL

/-- The solver as the `IKSolver` that `update_joints` invokes. -/
noncomputable def realSolver : IKSolver := fun cfg ang lf rf =>
  solve_inverse_kinematics cfg ang lf rf

/-! ## The gait controller (`WalkingManager`) -/

/-- The goal-handling branch of `WalkingManager::set_goal` (lines 165-193):
either the sentinel stop request (status reset when the queue holds at most 4
entries, front pop when it holds more than 3), or the normal-goal path that
computes the controller's current pose from `foot_steps[1]` (guarded by
`size() > 2`), delegates to the planner and sets status to `WALKING`. -/
def set_goal_branch (planO : PlanOracle) (goal_position : Point2q)
    (goal_orientation : ℚ) (s : WalkingState) : WalkingState :=
  if goal_position.x = -1 ∧ goal_position.y = -1 then
    let s' := if s.foot_steps.length ≤ 4 then { s with status := Status.start } else s
    if 3 < s.foot_steps.length then { s' with foot_steps := s'.foot_steps.tail } else s'
  else
    let cur : Point2q × ℚ :=
      if 2 < s.foot_steps.length then
        let y_off : ℚ :=
          if s.status ≠ Status.start then
            (if s.next_support = SupportFoot.leftFoot then -s.foot_y_offset else s.foot_y_offset)
          else 0
        let f1 := s.foot_steps.getD 1 default
        (⟨f1.position.x, f1.position.y + y_off⟩, f1.rotation)
      else (⟨0, 0⟩, 0)
    { s with
      foot_steps := planO goal_position goal_orientation cur.1 cur.2 s.next_support s.status
        s.foot_steps,
      status := Status.walking }

/-- `WalkingManager::set_goal`: marks the controller initialized, runs the
goal-handling branch, pushes the plan into the trajectory generator
(`lipm.update(foot_steps[0].time, foot_steps)`), recomputes the swing foot's
target and per-frame delta from `foot_steps[1]`, and stores the first queued
footstep's rotation in `walk_rotation`.  `foot_steps[0]` is read
unconditionally and `foot_steps[1]` whenever the first entry's support label
is `LEFT_FOOT` or `RIGHT_FOOT`; a missing entry is an out-of-bounds deque
access, modelled as `none`. -/
def set_goal (planO : PlanOracle) (lipmO : LipmOracle) (goal_position : Point2q)
    (goal_orientation : ℚ) (s : WalkingState) : Option WalkingState :=
  let s0 := if s.initialized then s else { s with initialized := true }
  let s1 := set_goal_branch planO goal_position goal_orientation s0
  match s1.foot_steps.get? 0 with
  | none => none
  | some f0 =>
    let s2 := { s1 with com_trajectory := lipmO f0.time s1.foot_steps }
    match f0.support_foot with
    | SupportFoot.leftFoot =>
      match s2.foot_steps.get? 1 with
      | none => none
      | some f1 =>
        let tgt : Pose3 :=
          if f1.support_foot = SupportFoot.bothFeet then
            ⟨f1.position.x, f1.position.y, f1.rotation⟩
          else
            ⟨f1.position.x, f1.position.y + s2.foot_y_offset, f1.rotation⟩
        some { s2 with
          right_foot_target := tgt,
          right_offset_delta := (tgt.sub s2.right_offset).scaleDiv s2.step_frames,
          next_support := SupportFoot.rightFoot,
          walk_rotation := f0.rotation }
    | SupportFoot.rightFoot =>
      match s2.foot_steps.get? 1 with
      | none => none
      | some f1 =>
        let tgt : Pose3 :=
          if f1.support_foot = SupportFoot.bothFeet then
            ⟨f1.position.x, f1.position.y, f1.rotation⟩
          else
            ⟨f1.position.x, f1.position.y - s2.foot_y_offset, f1.rotation⟩
        some { s2 with
          left_foot_target := tgt,
          left_offset_delta := (tgt.sub s2.left_offset).scaleDiv s2.step_frames,
          next_support := SupportFoot.leftFoot,
          walk_rotation := f0.rotation }
    | SupportFoot.bothFeet =>
      some { s2 with walk_rotation := f0.rotation }

/-- `WalkingManager::stop()`: `set_goal(Point2(-1, -1), 0)`. -/
def stopWalking (planO : PlanOracle) (lipmO : LipmOracle) (s : WalkingState) :
    Option WalkingState :=
  set_goal planO lipmO ⟨-1, -1⟩ 0 s

/-- `step_period` of one tick: the rounded ratio of the footstep interval to
the tick duration (walking_manager.cpp line 243). -/
def stepPeriodOf (s : WalkingState) (f0 f1 : FootStep) : ℚ :=
  cround ((f1.time - f0.time) / s.time_step)

/-- `ssp_start = round(dsp_duration / (2 * time_step))` (line 251). -/
def sspStartOf (s : WalkingState) : ℚ :=
  cround (s.dsp_duration / (2 * s.time_step))

/-- `ssp_end = round(step_period / 2)` (line 252). -/
def sspEndOf (s : WalkingState) (f0 f1 : FootStep) : ℚ :=
  cround (stepPeriodOf s f0 f1 / 2)

/-- `ssp_duration = ssp_end - ssp_start` (line 253). -/
def sspDurationOf (s : WalkingState) (f0 f1 : FootStep) : ℚ :=
  sspEndOf s f0 f1 - sspStartOf s

/-- `diff = step_period - lipm.get_com_trajectory().size()`, computed after
the tick's sample was popped — `rest` is the remaining trajectory (line 257). -/
def diffOf (s : WalkingState) (f0 f1 : FootStep) (rest : List CoMSample) : ℚ :=
  stepPeriodOf s f0 f1 - (rest.length : ℚ)

/-- The per-tick state update of `update_joints` between popping the CoM
sample and invoking the solver (lines 243-289): rotation-rate accumulation
into `walk_rotation`, then, for the non-support foot of the current footstep,
the triangular lift profile (raise by `foot_height / ssp_duration` inside the
single-support window, otherwise lower with a floor of 0) and the offset
interpolation (add the per-frame delta once `diff > ssp_start`, snap to the
target once `diff > ssp_start + ssp_duration * 2`). -/
def tick_core (s0 : WalkingState) (rest : List CoMSample) (f0 f1 : FootStep) :
    WalkingState :=
  let s1 := { s0 with
    com_trajectory := rest,
    walk_rotation :=
      s0.walk_rotation + (f1.rotation - f0.rotation) / stepPeriodOf s0 f0 f1 }
  let ssp_start := sspStartOf s0
  let ssp_end := sspEndOf s0 f0 f1
  let ssp_duration := sspDurationOf s0 f0 f1
  let diff := diffOf s0 f0 f1 rest
  match f0.support_foot with
  | SupportFoot.leftFoot =>
    let up : ℚ :=
      if ssp_start < diff ∧ diff ≤ ssp_end then
        s1.right_up + s0.foot_height / ssp_duration
      else if 0 < s1.right_up then
        max (s1.right_up - s0.foot_height / ssp_duration) 0
      else s1.right_up
    let s2 := { s1 with right_up := up }
    if ssp_start < diff then
      let off : Pose3 :=
        if ssp_start + ssp_duration * 2 < diff then s2.right_foot_target
        else s2.right_offset.add s2.right_offset_delta
      { s2 with right_offset := off }
    else s2
  | SupportFoot.rightFoot =>
    let up : ℚ :=
      if ssp_start < diff ∧ diff ≤ ssp_end then
        s1.left_up + s0.foot_height / ssp_duration
      else if 0 < s1.left_up then
        max (s1.left_up - s0.foot_height / ssp_duration) 0
      else s1.left_up
    let s2 := { s1 with left_up := up }
    if ssp_start < diff then
      let off : Pose3 :=
        if ssp_start + ssp_duration * 2 < diff then s2.left_foot_target
        else s2.left_offset.add s2.left_offset_delta
      { s2 with left_offset := off }
    else s2
  | SupportFoot.bothFeet => s1

/-- The target foot poses handed to the solver (lines 291-307): each foot's
offset relative to the popped CoM sample, shifted by the leg's neutral stance
offset; height is the lift plus the neutral height; yaw is
`walk_rotation - offset.yaw`. -/
noncomputable def tick_feet (s : WalkingState) (com : CoMSample) : Foot × Foot :=
  (⟨(((s.left_offset.x - com.x) + initial_left_foot.x : ℚ) : ℝ),
    (((s.left_offset.y - com.y) + initial_left_foot.y : ℚ) : ℝ),
    ((s.left_up + initial_left_foot.a : ℚ) : ℝ),
    ((s.walk_rotation - s.left_offset.a : ℚ) : ℝ)⟩,
   ⟨(((s.right_offset.x - com.x) + initial_right_foot.x : ℚ) : ℝ),
    (((s.right_offset.y - com.y) + initial_right_foot.y : ℚ) : ℝ),
    ((s.right_up + initial_right_foot.a : ℚ) : ℝ),
    ((s.walk_rotation - s.right_offset.a : ℚ) : ℝ)⟩)

/-- `WalkingManager::update_joints`: a no-op while uninitialized; re-issues a
stop request when the CoM sequence is empty; pops one CoM sample (popping an
empty deque is undefined behaviour, hence `none`); reads `foot_steps[0]` and
`foot_steps[1]` (out of bounds modelled as `none`); runs the per-tick update;
invokes the IK solver, keeping the previous angle array when the solver
faults (the `try`/`catch`); finally republishes every joint from the solver's
angle array, converted to degrees. -/
noncomputable def update_joints (solver : IKSolver) (planO : PlanOracle)
    (lipmO : LipmOracle) (s : WalkingState) : Option WalkingState :=
  if s.initialized then
    match (if s.com_trajectory.isEmpty then stopWalking planO lipmO s else some s) with
    | none => none
    | some s0 =>
      match s0.com_trajectory, s0.foot_steps.get? 0, s0.foot_steps.get? 1 with
      | com :: rest, some f0, some f1 =>
        let s3 := tick_core s0 rest f0 f1
        let ft := tick_feet s3 com
        let a2 := (solver s3.kin_config s3.kin_angles ft.1 ft.2).getD s3.kin_angles
        some { s3 with
          kin_angles := a2,
          joints := fun id => a2 id * (180 / Real.pi) }
      | _, _, _ => none
  else some s

/-- `n` consecutive control ticks. -/
noncomputable def iterate_ticks (solver : IKSolver) (planO : PlanOracle)
    (lipmO : LipmOracle) : ℕ → WalkingState → Option WalkingState
  | 0, s => some s
  | n + 1, s =>
    match update_joints solver planO lipmO s with
    | none => none
    | some s' => iterate_ticks solver planO lipmO n s'

/-! ## Configuration (`WalkingManager::set_config`, `Kinematics::set_config`)

The json documents are modelled as association lists over an enumerated key
type; the walking document maps section keys to sections of rational scalars.
`jitsuyo::assign_val(obj, key, target)` succeeds and overwrites `target` when
the key is present, and fails leaving `target` unchanged otherwise (wrong-type
fields behave like absent ones). -/

/-- Every json key the two configuration documents use. -/
inductive ConfigKey where
  | timing | posture | offset | stride | leg
  | dsp_duration | plan_period | com_period | step_frames
  | com_height | foot_height | feet_lateral
  | foot_y_offset
  | max_x | max_y | max_a
  | ankle_length | calf_length | knee_length | thigh_length
  | x | y
deriving DecidableEq

/-- A json object of scalar fields. -/
abbrev ConfigSection := List (ConfigKey × ℚ)

/-- A json document of sections. -/
abbrev ConfigDoc := List (ConfigKey × ConfigSection)

/-- `jitsuyo::assign_val` fetching a scalar field. -/
def getVal (sec : ConfigSection) (key : ConfigKey) : Option ℚ :=
  sec.lookup key

/-- `jitsuyo::assign_val` fetching a section object. -/
def getSection (doc : ConfigDoc) (key : ConfigKey) : Option ConfigSection :=
  doc.lookup key

/-- One `valid_section &= jitsuyo::assign_val(section, key, field)` step:
on success the field is overwritten through `upd`, on failure the state is
untouched and the flag is false. -/
def assignField (sec : ConfigSection) (key : ConfigKey)
    (upd : ℚ → WalkingState → WalkingState) (s : WalkingState) :
    WalkingState × Bool :=
  match getVal sec key with
  | some v => (upd v s, true)
  | none => (s, false)

/-- The `timing` group of `WalkingManager::set_config` (lines 78-93). -/
def applyTiming (w : ConfigDoc) (s : WalkingState) : WalkingState × Bool :=
  match getSection w ConfigKey.timing with
  | none => (s, false)
  | some ts =>
    let r1 := assignField ts ConfigKey.dsp_duration
      (fun v st => { st with dsp_duration := v }) s
    let r2 := assignField ts ConfigKey.plan_period
      (fun v st => { st with plan_period := v }) r1.1
    let r3 := assignField ts ConfigKey.com_period
      (fun v st => { st with com_period := v }) r2.1
    let r4 := assignField ts ConfigKey.step_frames
      (fun v st => { st with step_frames := v }) r3.1
    (r4.1, r1.2 && r2.2 && r3.2 && r4.2)

/-- The `posture` group of `WalkingManager::set_config` (lines 95-109). -/
def applyPosture (w : ConfigDoc) (s : WalkingState) : WalkingState × Bool :=
  match getSection w ConfigKey.posture with
  | none => (s, false)
  | some ps =>
    let r1 := assignField ps ConfigKey.com_height
      (fun v st => { st with com_height := v }) s
    let r2 := assignField ps ConfigKey.foot_height
      (fun v st => { st with foot_height := v }) r1.1
    let r3 := assignField ps ConfigKey.feet_lateral
      (fun v st => { st with feet_lateral := v }) r2.1
    (r3.1, r1.2 && r2.2 && r3.2)

/-- The `offset` group of `WalkingManager::set_config` (lines 111-123). -/
def applyOffsetGroup (w : ConfigDoc) (s : WalkingState) : WalkingState × Bool :=
  match getSection w ConfigKey.offset with
  | none => (s, false)
  | some os =>
    let r1 := assignField os ConfigKey.foot_y_offset
      (fun v st => { st with foot_y_offset := v }) s
    (r1.1, r1.2)

/-- The `stride` group of `WalkingManager::set_config` (lines 125-143).  On a
failed `max_a` read the C++ converts an indeterminate local through
`make_degree`; the model leaves `max_rotation` unchanged in that case. -/
def applyStride (w : ConfigDoc) (s : WalkingState) : WalkingState × Bool :=
  match getSection w ConfigKey.stride with
  | none => (s, false)
  | some ss =>
    let r1 := assignField ss ConfigKey.max_x
      (fun v st => { st with max_stride_x := v }) s
    let r2 := assignField ss ConfigKey.max_y
      (fun v st => { st with max_stride_y := v }) r1.1
    let r3 := assignField ss ConfigKey.max_a
      (fun v st => { st with max_rotation := v }) r2.1
    (r3.1, r1.2 && r2.2 && r3.2)

/-- One `valid_section &= jitsuyo::assign_val` step of
`Kinematics::set_config`. -/
def assignKinField (sec : ConfigSection) (key : ConfigKey)
    (upd : ℚ → KinConfig → KinConfig) (kc : KinConfig) : KinConfig × Bool :=
  match getVal sec key with
  | some v => (upd v kc, true)
  | none => (kc, false)

/-- `Kinematics::set_config` (kinematics.cpp lines 53-88): validates the
`leg` and `offset` groups, assigning each field as it is read.  The computed
validity flag is returned but — exactly as in the C++, whose `valid_config`
local is never acted upon — no error is ever raised from it. -/
def kinematics_set_config (k : ConfigDoc) (kc : KinConfig) : KinConfig × Bool :=
  let legPart : KinConfig × Bool :=
    match getSection k ConfigKey.leg with
    | none => (kc, false)
    | some ls =>
      let r1 := assignKinField ls ConfigKey.ankle_length
        (fun v c => { c with ankle_length := v }) kc
      let r2 := assignKinField ls ConfigKey.calf_length
        (fun v c => { c with calf_length := v }) r1.1
      let r3 := assignKinField ls ConfigKey.knee_length
        (fun v c => { c with knee_length := v }) r2.1
      let r4 := assignKinField ls ConfigKey.thigh_length
        (fun v c => { c with thigh_length := v }) r3.1
      (r4.1, r1.2 && r2.2 && r3.2 && r4.2)
  let offPart : KinConfig × Bool :=
    match getSection k ConfigKey.offset with
    | none => (legPart.1, false)
    | some os =>
      let r1 := assignKinField os ConfigKey.x
        (fun v c => { c with x_offset := v }) legPart.1
      let r2 := assignKinField os ConfigKey.y
        (fun v c => { c with y_offset := v }) r1.1
      (r2.1, r1.2 && r2.2)
  (offPart.1, legPart.2 && offPart.2)

/-- `WalkingManager::set_config` (walking_manager.cpp lines 73-154): the four
walking groups are validated (and their fields assigned as they are read);
when any group failed, a `ConfigError` is thrown — the returned flag is
`false` — with every successfully-read field already applied and the
kinematic document untouched.  When all groups pass, the parameters are
forwarded to the collaborators (their internal copies are not modelled) and
`Kinematics::set_config` runs, whose own validity result is ignored. -/
def set_config (w k : ConfigDoc) (s : WalkingState) : WalkingState × Bool :=
  let r1 := applyTiming w s
  let r2 := applyPosture w r1.1
  let r3 := applyOffsetGroup w r2.1
  let r4 := applyStride w r3.1
  if r1.2 && r2.2 && r3.2 && r4.2 then
    let kin := kinematics_set_config k r4.1.kin_config
    ({ r4.1 with kin_config := kin.1 }, true)
  else (r4.1, false)

/-! ## Helper lemmas: what one tick does to each state component -/

theorem tick_core_foot_steps (s0 : WalkingState) (rest : List CoMSample)
    (f0 f1 : FootStep) : (tick_core s0 rest f0 f1).foot_steps = s0.foot_steps := by
  unfold tick_core
  cases f0.support_foot <;> dsimp only <;> split_ifs <;> rfl

theorem tick_core_com_trajectory (s0 : WalkingState) (rest : List CoMSample)
    (f0 f1 : FootStep) : (tick_core s0 rest f0 f1).com_trajectory = rest := by
  unfold tick_core
  cases f0.support_foot <;> dsimp only <;> split_ifs <;> rfl

theorem tick_core_initialized (s0 : WalkingState) (rest : List CoMSample)
    (f0 f1 : FootStep) : (tick_core s0 rest f0 f1).initialized = s0.initialized := by
  unfold tick_core
  cases f0.support_foot <;> dsimp only <;> split_ifs <;> rfl

theorem tick_core_time_step (s0 : WalkingState) (rest : List CoMSample)
    (f0 f1 : FootStep) : (tick_core s0 rest f0 f1).time_step = s0.time_step := by
  unfold tick_core
  cases f0.support_foot <;> dsimp only <;> split_ifs <;> rfl

theorem tick_core_dsp_duration (s0 : WalkingState) (rest : List CoMSample)
    (f0 f1 : FootStep) : (tick_core s0 rest f0 f1).dsp_duration = s0.dsp_duration := by
  unfold tick_core
  cases f0.support_foot <;> dsimp only <;> split_ifs <;> rfl

theorem tick_core_step_frames (s0 : WalkingState) (rest : List CoMSample)
    (f0 f1 : FootStep) : (tick_core s0 rest f0 f1).step_frames = s0.step_frames := by
  unfold tick_core
  cases f0.support_foot <;> dsimp only <;> split_ifs <;> rfl

theorem tick_core_foot_height (s0 : WalkingState) (rest : List CoMSample)
    (f0 f1 : FootStep) : (tick_core s0 rest f0 f1).foot_height = s0.foot_height := by
  unfold tick_core
  cases f0.support_foot <;> dsimp only <;> split_ifs <;> rfl

theorem tick_core_kin_config (s0 : WalkingState) (rest : List CoMSample)
    (f0 f1 : FootStep) : (tick_core s0 rest f0 f1).kin_config = s0.kin_config := by
  unfold tick_core
  cases f0.support_foot <;> dsimp only <;> split_ifs <;> rfl

theorem tick_core_kin_angles (s0 : WalkingState) (rest : List CoMSample)
    (f0 f1 : FootStep) : (tick_core s0 rest f0 f1).kin_angles = s0.kin_angles := by
  unfold tick_core
  cases f0.support_foot <;> dsimp only <;> split_ifs <;> rfl

theorem tick_core_right_foot_target (s0 : WalkingState) (rest : List CoMSample)
    (f0 f1 : FootStep) :
    (tick_core s0 rest f0 f1).right_foot_target = s0.right_foot_target := by
  unfold tick_core
  cases f0.support_foot <;> dsimp only <;> split_ifs <;> rfl

theorem tick_core_right_offset_delta (s0 : WalkingState) (rest : List CoMSample)
    (f0 f1 : FootStep) :
    (tick_core s0 rest f0 f1).right_offset_delta = s0.right_offset_delta := by
  unfold tick_core
  cases f0.support_foot <;> dsimp only <;> split_ifs <;> rfl

theorem tick_core_left_foot_target (s0 : WalkingState) (rest : List CoMSample)
    (f0 f1 : FootStep) :
    (tick_core s0 rest f0 f1).left_foot_target = s0.left_foot_target := by
  unfold tick_core
  cases f0.support_foot <;> dsimp only <;> split_ifs <;> rfl

theorem tick_core_left_offset_delta (s0 : WalkingState) (rest : List CoMSample)
    (f0 f1 : FootStep) :
    (tick_core s0 rest f0 f1).left_offset_delta = s0.left_offset_delta := by
  unfold tick_core
  cases f0.support_foot <;> dsimp only <;> split_ifs <;> rfl

theorem tick_core_right_offset_of_left (s0 : WalkingState) (rest : List CoMSample)
    (f0 f1 : FootStep) (h : f0.support_foot = SupportFoot.leftFoot) :
    (tick_core s0 rest f0 f1).right_offset =
      (if sspStartOf s0 < diffOf s0 f0 f1 rest then
        (if sspStartOf s0 + sspDurationOf s0 f0 f1 * 2 < diffOf s0 f0 f1 rest then
          s0.right_foot_target
        else s0.right_offset.add s0.right_offset_delta)
      else s0.right_offset) := by
  unfold tick_core
  rw [h]
  dsimp only
  split_ifs <;> rfl

theorem tick_core_left_offset_of_right (s0 : WalkingState) (rest : List CoMSample)
    (f0 f1 : FootStep) (h : f0.support_foot = SupportFoot.rightFoot) :
    (tick_core s0 rest f0 f1).left_offset =
      (if sspStartOf s0 < diffOf s0 f0 f1 rest then
        (if sspStartOf s0 + sspDurationOf s0 f0 f1 * 2 < diffOf s0 f0 f1 rest then
          s0.left_foot_target
        else s0.left_offset.add s0.left_offset_delta)
      else s0.left_offset) := by
  unfold tick_core
  rw [h]
  dsimp only
  split_ifs <;> rfl

theorem tick_core_right_up_of_left (s0 : WalkingState) (rest : List CoMSample)
    (f0 f1 : FootStep) (h : f0.support_foot = SupportFoot.leftFoot) :
    (tick_core s0 rest f0 f1).right_up =
      (if sspStartOf s0 < diffOf s0 f0 f1 rest ∧
          diffOf s0 f0 f1 rest ≤ sspEndOf s0 f0 f1 then
        s0.right_up + s0.foot_height / sspDurationOf s0 f0 f1
      else if 0 < s0.right_up then
        max (s0.right_up - s0.foot_height / sspDurationOf s0 f0 f1) 0
      else s0.right_up) := by
  unfold tick_core
  rw [h]
  dsimp only
  split_ifs <;> rfl

theorem tick_core_left_up_of_right (s0 : WalkingState) (rest : List CoMSample)
    (f0 f1 : FootStep) (h : f0.support_foot = SupportFoot.rightFoot) :
    (tick_core s0 rest f0 f1).left_up =
      (if sspStartOf s0 < diffOf s0 f0 f1 rest ∧
          diffOf s0 f0 f1 rest ≤ sspEndOf s0 f0 f1 then
        s0.left_up + s0.foot_height / sspDurationOf s0 f0 f1
      else if 0 < s0.left_up then
        max (s0.left_up - s0.foot_height / sspDurationOf s0 f0 f1) 0
      else s0.left_up) := by
  unfold tick_core
  rw [h]
  dsimp only
  split_ifs <;> rfl

theorem tick_core_left_up_of_left (s0 : WalkingState) (rest : List CoMSample)
    (f0 f1 : FootStep) (h : f0.support_foot = SupportFoot.leftFoot) :
    (tick_core s0 rest f0 f1).left_up = s0.left_up := by
  unfold tick_core
  rw [h]
  dsimp only
  split_ifs <;> rfl

theorem tick_core_right_up_of_right (s0 : WalkingState) (rest : List CoMSample)
    (f0 f1 : FootStep) (h : f0.support_foot = SupportFoot.rightFoot) :
    (tick_core s0 rest f0 f1).right_up = s0.right_up := by
  unfold tick_core
  rw [h]
  dsimp only
  split_ifs <;> rfl

theorem tick_core_ups_of_both (s0 : WalkingState) (rest : List CoMSample)
    (f0 f1 : FootStep) (h : f0.support_foot = SupportFoot.bothFeet) :
    (tick_core s0 rest f0 f1).left_up = s0.left_up ∧
      (tick_core s0 rest f0 f1).right_up = s0.right_up := by
  unfold tick_core
  rw [h]
  exact ⟨rfl, rfl⟩

theorem tick_core_offsets_of_both (s0 : WalkingState) (rest : List CoMSample)
    (f0 f1 : FootStep) (h : f0.support_foot = SupportFoot.bothFeet) :
    (tick_core s0 rest f0 f1).left_offset = s0.left_offset ∧
      (tick_core s0 rest f0 f1).right_offset = s0.right_offset := by
  unfold tick_core
  rw [h]
  exact ⟨rfl, rfl⟩

theorem tick_core_left_offset_of_left (s0 : WalkingState) (rest : List CoMSample)
    (f0 f1 : FootStep) (h : f0.support_foot = SupportFoot.leftFoot) :
    (tick_core s0 rest f0 f1).left_offset = s0.left_offset := by
  unfold tick_core
  rw [h]
  dsimp only
  split_ifs <;> rfl

theorem tick_core_right_offset_of_right (s0 : WalkingState) (rest : List CoMSample)
    (f0 f1 : FootStep) (h : f0.support_foot = SupportFoot.rightFoot) :
    (tick_core s0 rest f0 f1).right_offset = s0.right_offset := by
  unfold tick_core
  rw [h]
  dsimp only
  split_ifs <;> rfl

theorem update_joints_eq (solver : IKSolver) (planO : PlanOracle) (lipmO : LipmOracle)
    (s : WalkingState) (c : CoMSample) (rest : List CoMSample) (f0 f1 : FootStep)
    (hi : s.initialized = true) (hc : s.com_trajectory = c :: rest)
    (h0 : s.foot_steps.get? 0 = some f0) (h1 : s.foot_steps.get? 1 = some f1) :
    update_joints solver planO lipmO s =
      some { tick_core s rest f0 f1 with
        kin_angles :=
          (solver (tick_core s rest f0 f1).kin_config (tick_core s rest f0 f1).kin_angles
            (tick_feet (tick_core s rest f0 f1) c).1
            (tick_feet (tick_core s rest f0 f1) c).2).getD
            (tick_core s rest f0 f1).kin_angles,
        joints := fun id =>
          ((solver (tick_core s rest f0 f1).kin_config
              (tick_core s rest f0 f1).kin_angles
              (tick_feet (tick_core s rest f0 f1) c).1
              (tick_feet (tick_core s rest f0 f1) c).2).getD
            (tick_core s rest f0 f1).kin_angles) id * (180 / Real.pi) } := by
  unfold update_joints
  rw [hi, hc]
  simp only [List.isEmpty_cons, if_false, Bool.false_eq_true]
  rw [hc, h0, h1]
  rfl

theorem set_goal_branch_only_status_and_queue (planO : PlanOracle) (gp : Point2q)
    (go : ℚ) (s : WalkingState) :
    (set_goal_branch planO gp go s).initialized = s.initialized ∧
      (set_goal_branch planO gp go s).foot_y_offset = s.foot_y_offset ∧
      (set_goal_branch planO gp go s).step_frames = s.step_frames ∧
      (set_goal_branch planO gp go s).time_step = s.time_step ∧
      (set_goal_branch planO gp go s).dsp_duration = s.dsp_duration ∧
      (set_goal_branch planO gp go s).foot_height = s.foot_height ∧
      (set_goal_branch planO gp go s).left_up = s.left_up ∧
      (set_goal_branch planO gp go s).right_up = s.right_up ∧
      (set_goal_branch planO gp go s).left_offset = s.left_offset ∧
      (set_goal_branch planO gp go s).right_offset = s.right_offset ∧
      (set_goal_branch planO gp go s).left_offset_delta = s.left_offset_delta ∧
      (set_goal_branch planO gp go s).right_offset_delta = s.right_offset_delta ∧
      (set_goal_branch planO gp go s).left_foot_target = s.left_foot_target ∧
      (set_goal_branch planO gp go s).right_foot_target = s.right_foot_target ∧
      (set_goal_branch planO gp go s).kin_angles = s.kin_angles ∧
      (set_goal_branch planO gp go s).joints = s.joints := by
  unfold set_goal_branch
  split_ifs <;>
    exact ⟨rfl, rfl, rfl, rfl, rfl, rfl, rfl, rfl, rfl, rfl, rfl, rfl, rfl, rfl, rfl, rfl⟩

theorem set_goal_eq_left (planO : PlanOracle) (lipmO : LipmOracle) (gp : Point2q)
    (go : ℚ) (s : WalkingState) (f0 f1 : FootStep)
    (hi : s.initialized = true)
    (h0 : (set_goal_branch planO gp go s).foot_steps.get? 0 = some f0)
    (hsup : f0.support_foot = SupportFoot.leftFoot)
    (h1 : (set_goal_branch planO gp go s).foot_steps.get? 1 = some f1) :
    set_goal planO lipmO gp go s =
      some { set_goal_branch planO gp go s with
        com_trajectory := lipmO f0.time (set_goal_branch planO gp go s).foot_steps,
        right_foot_target :=
          (if f1.support_foot = SupportFoot.bothFeet then
            (⟨f1.position.x, f1.position.y, f1.rotation⟩ : Pose3)
          else
            ⟨f1.position.x,
              f1.position.y + (set_goal_branch planO gp go s).foot_y_offset,
              f1.rotation⟩),
        right_offset_delta :=
          (((if f1.support_foot = SupportFoot.bothFeet then
              (⟨f1.position.x, f1.position.y, f1.rotation⟩ : Pose3)
            else
              ⟨f1.position.x,
                f1.position.y + (set_goal_branch planO gp go s).foot_y_offset,
                f1.rotation⟩)).sub
            (set_goal_branch planO gp go s).right_offset).scaleDiv
            (set_goal_branch planO gp go s).step_frames,
        next_support := SupportFoot.rightFoot,
        walk_rotation := f0.rotation } := by
  unfold set_goal
  rw [if_pos hi]
  dsimp only
  rw [h0]
  dsimp only
  rw [hsup]
  dsimp only
  rw [h1]

theorem set_goal_eq_right (planO : PlanOracle) (lipmO : LipmOracle) (gp : Point2q)
    (go : ℚ) (s : WalkingState) (f0 f1 : FootStep)
    (hi : s.initialized = true)
    (h0 : (set_goal_branch planO gp go s).foot_steps.get? 0 = some f0)
    (hsup : f0.support_foot = SupportFoot.rightFoot)
    (h1 : (set_goal_branch planO gp go s).foot_steps.get? 1 = some f1) :
    set_goal planO lipmO gp go s =
      some { set_goal_branch planO gp go s with
        com_trajectory := lipmO f0.time (set_goal_branch planO gp go s).foot_steps,
        left_foot_target :=
          (if f1.support_foot = SupportFoot.bothFeet then
            (⟨f1.position.x, f1.position.y, f1.rotation⟩ : Pose3)
          else
            ⟨f1.position.x,
              f1.position.y - (set_goal_branch planO gp go s).foot_y_offset,
              f1.rotation⟩),
        left_offset_delta :=
          (((if f1.support_foot = SupportFoot.bothFeet then
              (⟨f1.position.x, f1.position.y, f1.rotation⟩ : Pose3)
            else
              ⟨f1.position.x,
                f1.position.y - (set_goal_branch planO gp go s).foot_y_offset,
                f1.rotation⟩)).sub
            (set_goal_branch planO gp go s).left_offset).scaleDiv
            (set_goal_branch planO gp go s).step_frames,
        next_support := SupportFoot.leftFoot,
        walk_rotation := f0.rotation } := by
  unfold set_goal
  rw [if_pos hi]
  dsimp only
  rw [h0]
  dsimp only
  rw [hsup]
  dsimp only
  rw [h1]

theorem set_goal_eq_both (planO : PlanOracle) (lipmO : LipmOracle) (gp : Point2q)
    (go : ℚ) (s : WalkingState) (f0 : FootStep)
    (hi : s.initialized = true)
    (h0 : (set_goal_branch planO gp go s).foot_steps.get? 0 = some f0)
    (hsup : f0.support_foot = SupportFoot.bothFeet) :
    set_goal planO lipmO gp go s =
      some { set_goal_branch planO gp go s with
        com_trajectory := lipmO f0.time (set_goal_branch planO gp go s).foot_steps,
        walk_rotation := f0.rotation } := by
  unfold set_goal
  rw [if_pos hi]
  dsimp only
  rw [h0]
  dsimp only
  rw [hsup]

/-! ## Helper lemmas: the IK solver's clamped domains -/

theorem sqrtChecked_max_eq (x : ℝ) :
    sqrtChecked (max 0 x) = some (Real.sqrt (max 0 x)) := by
  unfold sqrtChecked
  rw [if_neg (not_lt.2 (le_max_left 0 x))]

theorem arccosChecked_clamp_eq (v : ℝ) :
    arccosChecked (kclamp v (-1) 1) = some (Real.arccos (kclamp v (-1) 1)) := by
  unfold arccosChecked kclamp
  rw [if_neg]
  rw [not_or]
  constructor
  · exact not_lt.2 (le_max_left _ _)
  · exact not_lt.2 (max_le (by norm_num) (min_le_right v 1))

theorem solveLeg_some (cfg : KinConfig) (foot : Foot) (yoff : ℝ)
    (i1 i2 i3 i4 i5 i6 i7 : JointId) (ps : ℝ) (ang : JointId → ℝ) :
    ∃ out, solveLeg cfg foot yoff i1 i2 i3 i4 i5 i6 i7 ps ang = some out ∧
      ∀ j, j ≠ i1 → j ≠ i2 → j ≠ i3 → j ≠ i4 → j ≠ i5 → j ≠ i6 → j ≠ i7 →
        out j = ang j := by
  unfold solveLeg
  dsimp only
  rw [sqrtChecked_max_eq]
  dsimp only
  rw [arccosChecked_clamp_eq]
  dsimp only
  refine ⟨_, rfl, ?_⟩
  intro j n1 n2 n3 n4 n5 n6 n7
  rw [Function.update_noteq n7, Function.update_noteq n6, Function.update_noteq n5,
    Function.update_noteq n4, Function.update_noteq n3, Function.update_noteq n2,
    Function.update_noteq n1]

theorem solve_inverse_kinematics_total (cfg : KinConfig) (ang : JointId → ℝ)
    (lf rf : Foot) :
    ∃ out, solve_inverse_kinematics cfg ang lf rf = some out ∧
      out JointId.NECK_YAW = ang JointId.NECK_YAW ∧
      out JointId.NECK_PITCH = ang JointId.NECK_PITCH := by
  obtain ⟨outL, hL, hLkeep⟩ := solveLeg_some cfg lf (-((cfg.y_offset : ℚ) : ℝ))
    JointId.LEFT_HIP_YAW JointId.LEFT_HIP_ROLL JointId.LEFT_HIP_PITCH
    JointId.LEFT_UPPER_KNEE JointId.LEFT_LOWER_KNEE
    JointId.LEFT_ANKLE_PITCH JointId.LEFT_ANKLE_ROLL (-1) ang
  obtain ⟨outR, hR, hRkeep⟩ := solveLeg_some cfg rf (((cfg.y_offset : ℚ) : ℝ))
    JointId.RIGHT_HIP_YAW JointId.RIGHT_HIP_ROLL JointId.RIGHT_HIP_PITCH
    JointId.RIGHT_UPPER_KNEE JointId.RIGHT_LOWER_KNEE
    JointId.RIGHT_ANKLE_PITCH JointId.RIGHT_ANKLE_ROLL 1 outL
  refine ⟨outR, ?_, ?_, ?_⟩
  · unfold solve_inverse_kinematics
    rw [hL]
    exact hR
  · rw [hRkeep _ (by decide) (by decide) (by decide) (by decide) (by decide)
      (by decide) (by decide)]
    exact hLkeep _ (by decide) (by decide) (by decide) (by decide) (by decide)
      (by decide) (by decide)
  · rw [hRkeep _ (by decide) (by decide) (by decide) (by decide) (by decide)
      (by decide) (by decide)]
    exact hLkeep _ (by decide) (by decide) (by decide) (by decide) (by decide)
      (by decide) (by decide)

/-! ## Helper lemmas: the sentinel branch and set_goal success -/

theorem set_goal_branch_sentinel_status (planO : PlanOracle) (go : ℚ)
    (s : WalkingState) :
    (set_goal_branch planO ⟨-1, -1⟩ go s).status =
      (if s.foot_steps.length ≤ 4 then Status.start else s.status) := by
  unfold set_goal_branch
  rw [if_pos ⟨rfl, rfl⟩]
  dsimp only
  split_ifs <;> rfl

theorem set_goal_branch_sentinel_queue (planO : PlanOracle) (go : ℚ)
    (s : WalkingState) :
    (set_goal_branch planO ⟨-1, -1⟩ go s).foot_steps =
      (if 3 < s.foot_steps.length then s.foot_steps.tail else s.foot_steps) := by
  unfold set_goal_branch
  rw [if_pos ⟨rfl, rfl⟩]
  dsimp only
  split_ifs <;> rfl

theorem set_goal_keeps_status_and_queue (planO : PlanOracle) (lipmO : LipmOracle)
    (gp : Point2q) (go : ℚ) (s : WalkingState) (hi : s.initialized = true)
    (hq2 : 2 ≤ (set_goal_branch planO gp go s).foot_steps.length) :
    ∃ s', set_goal planO lipmO gp go s = some s' ∧
      s'.status = (set_goal_branch planO gp go s).status ∧
      s'.foot_steps = (set_goal_branch planO gp go s).foot_steps ∧
      s'.initialized = (set_goal_branch planO gp go s).initialized := by
  have hl0 : 0 < (set_goal_branch planO gp go s).foot_steps.length := by omega
  have hl1 : 1 < (set_goal_branch planO gp go s).foot_steps.length := by omega
  have h0 : (set_goal_branch planO gp go s).foot_steps.get? 0 =
      some ((set_goal_branch planO gp go s).foot_steps.get ⟨0, hl0⟩) :=
    List.get?_eq_get hl0
  have h1 : (set_goal_branch planO gp go s).foot_steps.get? 1 =
      some ((set_goal_branch planO gp go s).foot_steps.get ⟨1, hl1⟩) :=
    List.get?_eq_get hl1
  rcases hsf : ((set_goal_branch planO gp go s).foot_steps.get ⟨0, hl0⟩).support_foot with
    _ | _ | _
  · exact ⟨_, set_goal_eq_left planO lipmO gp go s _ _ hi h0 hsf h1, rfl, rfl, rfl⟩
  · exact ⟨_, set_goal_eq_right planO lipmO gp go s _ _ hi h0 hsf h1, rfl, rfl, rfl⟩
  · exact ⟨_, set_goal_eq_both planO lipmO gp go s _ hi h0 hsf, rfl, rfl, rfl⟩

/-! ## The claims -/

/-- Claim C3: for every pair of finite foot targets (any position and yaw,
reachable or not), `solve_inverse_kinematics` raises no error and produces
finite angles for all leg joints: the square-root argument is clamped below
at 0 and the arccos ratio is clamped into [-1, 1], so no domain error occurs
even for targets beyond `2 * thigh_length` reach. -/
theorem spec_c3_ik_totality (cfg : KinConfig) (ang : JointId → ℝ) (lf rf : Foot) :
    (solve_inverse_kinematics cfg ang lf rf).isSome = true := by
  obtain ⟨out, h, -, -⟩ := solve_inverse_kinematics_total cfg ang lf rf
  rw [h]
  rfl

/-- Claim C4: for every call of `set_goal` with the sentinel stop position
(-1, -1): if the footstep queue has at most 4 entries then status is reset to
`START`; if the queue has more than 3 entries then exactly one footstep is
popped from the front; for queue size 4 both effects occur in the same call. -/
theorem spec_c4_stop_request (planO : PlanOracle) (lipmO : LipmOracle)
    (s : WalkingState) (hi : s.initialized = true)
    (hq : 2 ≤ s.foot_steps.length) :
    ∃ s', set_goal planO lipmO ⟨-1, -1⟩ 0 s = some s' ∧
      (s.foot_steps.length ≤ 4 → s'.status = Status.start) ∧
      (3 < s.foot_steps.length → s'.foot_steps = s.foot_steps.tail) ∧
      (s.foot_steps.length ≤ 3 → s'.foot_steps = s.foot_steps) ∧
      (s.foot_steps.length = 4 →
        s'.status = Status.start ∧ s'.foot_steps = s.foot_steps.tail) := by
  have hq2 : 2 ≤ (set_goal_branch planO ⟨-1, -1⟩ 0 s).foot_steps.length := by
    rw [set_goal_branch_sentinel_queue]
    split_ifs with h
    · rw [List.length_tail]
      omega
    · exact hq
  obtain ⟨s', hsg, hst, hfs, -⟩ :=
    set_goal_keeps_status_and_queue planO lipmO ⟨-1, -1⟩ 0 s hi hq2
  rw [set_goal_branch_sentinel_status] at hst
  rw [set_goal_branch_sentinel_queue] at hfs
  refine ⟨s', hsg, ?_, ?_, ?_, ?_⟩
  · intro h
    rw [hst, if_pos h]
  · intro h
    rw [hfs, if_pos h]
  · intro h
    rw [hfs, if_neg (by omega)]
  · intro h
    exact ⟨by rw [hst, if_pos (by omega)], by rw [hfs, if_pos (by omega)]⟩

/-- An identity-queue plan oracle for concrete instances. -/
def planOracle0 : PlanOracle := fun _ _ _ _ _ _ q => q

/-- A trajectory oracle returning three samples, for concrete instances. -/
def lipmOracle3 : LipmOracle := fun _ _ => [⟨0, 0⟩, ⟨0, 0⟩, ⟨0, 0⟩]

/-- A concrete footstep whose support label is `LEFT_FOOT`. -/
def stepLeft0 : FootStep := ⟨⟨0, 0⟩, 0, 0, SupportFoot.leftFoot⟩

/-- A concrete footstep whose support label is `BOTH_FEET`, at time 1/20. -/
def stepBoth1 : FootStep := ⟨⟨1 / 10, 0⟩, 0, 1 / 20, SupportFoot.bothFeet⟩

/-- A concrete initialized state with a 4-entry queue. -/
def stateC4 : WalkingState :=
  { initialWalkingState with
    initialized := true
    foot_steps := [stepLeft0, stepBoth1, stepLeft0, stepBoth1] }

/-- Witness for C4: the stop request on a concrete 4-entry queue resets the
status and pops the front footstep in the same call. -/
theorem spec_c4_stop_request_witness :
    ∃ s', set_goal planOracle0 lipmOracle3 ⟨-1, -1⟩ 0 stateC4 = some s' ∧
      (stateC4.foot_steps.length ≤ 4 → s'.status = Status.start) ∧
      (3 < stateC4.foot_steps.length → s'.foot_steps = stateC4.foot_steps.tail) ∧
      (stateC4.foot_steps.length ≤ 3 → s'.foot_steps = stateC4.foot_steps) ∧
      (stateC4.foot_steps.length = 4 →
        s'.status = Status.start ∧ s'.foot_steps = stateC4.foot_steps.tail) :=
  spec_c4_stop_request planOracle0 lipmOracle3 stateC4 rfl (by decide)

/-! ## Helper lemmas: configuration fields not touched by later groups -/

theorem assignField_some (sec : ConfigSection) (key : ConfigKey)
    (upd : ℚ → WalkingState → WalkingState) (s : WalkingState) (v : ℚ)
    (h : getVal sec key = some v) :
    assignField sec key upd s = (upd v s, true) := by
  unfold assignField
  rw [h]

theorem applyPosture_dsp (w : ConfigDoc) (s : WalkingState) :
    (applyPosture w s).1.dsp_duration = s.dsp_duration := by
  unfold applyPosture assignField
  cases getSection w ConfigKey.posture
  · rfl
  · dsimp only
    repeat' split
    all_goals rfl

theorem applyOffsetGroup_dsp (w : ConfigDoc) (s : WalkingState) :
    (applyOffsetGroup w s).1.dsp_duration = s.dsp_duration := by
  unfold applyOffsetGroup assignField
  cases getSection w ConfigKey.offset
  · rfl
  · dsimp only
    repeat' split
    all_goals rfl

theorem applyStride_dsp (w : ConfigDoc) (s : WalkingState) :
    (applyStride w s).1.dsp_duration = s.dsp_duration := by
  unfold applyStride assignField
  cases getSection w ConfigKey.stride
  · rfl
  · dsimp only
    repeat' split
    all_goals rfl

theorem applyTiming_kin (w : ConfigDoc) (s : WalkingState) :
    (applyTiming w s).1.kin_config = s.kin_config := by
  unfold applyTiming assignField
  cases getSection w ConfigKey.timing
  · rfl
  · dsimp only
    repeat' split
    all_goals rfl

theorem applyPosture_kin (w : ConfigDoc) (s : WalkingState) :
    (applyPosture w s).1.kin_config = s.kin_config := by
  unfold applyPosture assignField
  cases getSection w ConfigKey.posture
  · rfl
  · dsimp only
    repeat' split
    all_goals rfl

theorem applyOffsetGroup_kin (w : ConfigDoc) (s : WalkingState) :
    (applyOffsetGroup w s).1.kin_config = s.kin_config := by
  unfold applyOffsetGroup assignField
  cases getSection w ConfigKey.offset
  · rfl
  · dsimp only
    repeat' split
    all_goals rfl

theorem applyStride_kin (w : ConfigDoc) (s : WalkingState) :
    (applyStride w s).1.kin_config = s.kin_config := by
  unfold applyStride assignField
  cases getSection w ConfigKey.stride
  · rfl
  · dsimp only
    repeat' split
    all_goals rfl

theorem applyTiming_dsp_assigned (w : ConfigDoc) (s : WalkingState)
    (ts : ConfigSection) (v : ℚ) (hts : getSection w ConfigKey.timing = some ts)
    (hv : getVal ts ConfigKey.dsp_duration = some v) :
    (applyTiming w s).1.dsp_duration = v := by
  unfold applyTiming
  rw [hts]
  dsimp only
  rw [assignField_some _ _ _ _ _ hv]
  unfold assignField
  dsimp only
  repeat' split
  all_goals rfl

/-- A walking document whose `timing` section holds only `dsp_duration = 5`
and whose other groups are missing entirely. -/
def wdocOnlyDsp : ConfigDoc := [(ConfigKey.timing, [(ConfigKey.dsp_duration, 5)])]

/-- A concrete state previously configured with `dsp_duration = 99`. -/
def stateC7 : WalkingState := { initialWalkingState with dsp_duration := 99 }

/-- Counterexample to claim C7 as stated: `set_config` on an invalid walking
document (only `timing.dsp_duration` present) reports the failure, yet the
previously configured `dsp_duration = 99` has already been overwritten by the
successfully-read value 5 — the prior parameters are not left unchanged. -/
theorem spec_c7_counterexample :
    stateC7.dsp_duration = 99 ∧
      (set_config wdocOnlyDsp [] stateC7).2 = false ∧
      (set_config wdocOnlyDsp [] stateC7).1.dsp_duration = 5 :=
  ⟨rfl, rfl, rfl⟩

/-- Claim C7 (amended): when `set_config` raises its configuration error,
every field read successfully before the failure has already been assigned
(a present `timing.dsp_duration` value `v` is stored even though the
configuration as a whole is rejected), so the walking parameters may be
partially applied; only the kinematic configuration is guaranteed untouched,
because the error is raised before `Kinematics::set_config` runs. -/
theorem spec_c7_partial_apply (w k : ConfigDoc) (s : WalkingState)
    (ts : ConfigSection) (v : ℚ)
    (hts : getSection w ConfigKey.timing = some ts)
    (hv : getVal ts ConfigKey.dsp_duration = some v)
    (hfail : (set_config w k s).2 = false) :
    (set_config w k s).1.dsp_duration = v ∧
      (set_config w k s).1.kin_config = s.kin_config := by
  unfold set_config at hfail ⊢
  dsimp only at hfail ⊢
  split_ifs at hfail ⊢ with hOK
  constructor
  · rw [applyStride_dsp, applyOffsetGroup_dsp, applyPosture_dsp]
    exact applyTiming_dsp_assigned w s ts v hts hv
  · rw [applyStride_kin, applyOffsetGroup_kin, applyPosture_kin, applyTiming_kin]

/-- Witness for the amended C7 at the concrete inputs of the counterexample
scenario. -/
theorem spec_c7_partial_apply_witness :
    (set_config wdocOnlyDsp [] stateC7).1.dsp_duration = 5 ∧
      (set_config wdocOnlyDsp [] stateC7).1.kin_config = stateC7.kin_config :=
  spec_c7_partial_apply wdocOnlyDsp [] stateC7 [(ConfigKey.dsp_duration, 5)] 5
    rfl rfl rfl

/-- A complete, valid walking configuration document. -/
def wdocComplete : ConfigDoc :=
  [(ConfigKey.timing,
      [(ConfigKey.dsp_duration, 1 / 5), (ConfigKey.plan_period, 1 / 2),
        (ConfigKey.com_period, 1 / 100), (ConfigKey.step_frames, 20)]),
   (ConfigKey.posture,
      [(ConfigKey.com_height, 1 / 5), (ConfigKey.foot_height, 1 / 50),
        (ConfigKey.feet_lateral, 7 / 100)]),
   (ConfigKey.offset, [(ConfigKey.foot_y_offset, 3 / 100)]),
   (ConfigKey.stride,
      [(ConfigKey.max_x, 1 / 10), (ConfigKey.max_y, 1 / 20),
        (ConfigKey.max_a, 30)])]

/-- Claim C8 fails on the code: `Kinematics::set_config` computes its
validity flag (false for the empty kinematic document, which is missing both
required groups), yet the manager's `set_config` completes without raising
any error — the invalid kinematic document is accepted silently, because
`Kinematics::set_config` never throws on its dead `valid_config` local. -/
theorem spec_c8_kinematics_never_throws :
    (kinematics_set_config [] initialWalkingState.kin_config).2 = false ∧
      (set_config wdocComplete [] initialWalkingState).2 = true :=
  ⟨rfl, rfl⟩

/-- A one-entry queue whose only footstep is labelled `BOTH_FEET`; the
controller is still uninitialized, as before the very first `stop()`. -/
def stateC10 : WalkingState :=
  { initialWalkingState with foot_steps := [stepBoth1] }

/-- Counterexample to claim C10 as stated: a `stop()` call on a one-entry
queue whose entry is labelled `BOTH_FEET` completes without any out-of-bounds
access — `foot_steps[1]` is only read when the first entry's support label is
`LEFT_FOOT` or `RIGHT_FOOT`, so not every call requires two queue entries. -/
theorem spec_c10_counterexample :
    stateC10.foot_steps.length = 1 ∧
      (stopWalking planOracle0 lipmOracle3 stateC10).isSome = true :=
  ⟨rfl, rfl⟩

/-- Claim C10 (amended): after the planning branch `set_goal` unconditionally
reads `foot_steps[0]`, and reads `foot_steps[1]` exactly when the first
entry's support label is `LEFT_FOOT` or `RIGHT_FOOT`.  Hence an empty
post-branch queue is out of bounds on every call, a one-entry queue is out of
bounds unless its entry is labelled `BOTH_FEET`, and two entries always
suffice. -/
theorem spec_c10_queue_preconditions (planO : PlanOracle) (lipmO : LipmOracle)
    (gp : Point2q) (go : ℚ) (s : WalkingState) (hi : s.initialized = true) :
    ((set_goal_branch planO gp go s).foot_steps = [] →
      set_goal planO lipmO gp go s = none) ∧
    (∀ f0, (set_goal_branch planO gp go s).foot_steps = [f0] →
      f0.support_foot ≠ SupportFoot.bothFeet →
      set_goal planO lipmO gp go s = none) ∧
    (2 ≤ (set_goal_branch planO gp go s).foot_steps.length →
      (set_goal planO lipmO gp go s).isSome = true) ∧
    (∀ f0, (set_goal_branch planO gp go s).foot_steps.get? 0 = some f0 →
      f0.support_foot = SupportFoot.bothFeet →
      (set_goal planO lipmO gp go s).isSome = true) := by
  refine ⟨?_, ?_, ?_, ?_⟩
  · intro hq
    have h0 : (set_goal_branch planO gp go s).foot_steps.get? 0 = none := by
      rw [hq]
      rfl
    unfold set_goal
    rw [if_pos hi]
    dsimp only
    rw [h0]
  · intro f0 hq hnb
    have h0 : (set_goal_branch planO gp go s).foot_steps.get? 0 = some f0 := by
      rw [hq]
      rfl
    have h1 : (set_goal_branch planO gp go s).foot_steps.get? 1 = none := by
      rw [hq]
      rfl
    rcases hsf : f0.support_foot with _ | _ | _
    · unfold set_goal
      rw [if_pos hi]
      dsimp only
      rw [h0]
      dsimp only
      rw [hsf]
      dsimp only
      rw [h1]
    · unfold set_goal
      rw [if_pos hi]
      dsimp only
      rw [h0]
      dsimp only
      rw [hsf]
      dsimp only
      rw [h1]
    · exact absurd hsf hnb
  · intro hq2
    obtain ⟨s', hsg, -, -, -⟩ :=
      set_goal_keeps_status_and_queue planO lipmO gp go s hi hq2
    rw [hsg]
    rfl
  · intro f0 h0 hsf
    rw [set_goal_eq_both planO lipmO gp go s f0 hi h0 hsf]
    rfl

/-- An initialized state with an empty footstep queue. -/
def stateC10empty : WalkingState :=
  { initialWalkingState with initialized := true, foot_steps := [] }

/-- Witness for the amended C10: on a concrete empty queue, `set_goal`
reaches the out-of-bounds `foot_steps[0]` access. -/
theorem spec_c10_queue_preconditions_witness :
    set_goal planOracle0 lipmOracle3 ⟨-1, -1⟩ 0 stateC10empty = none :=
  (spec_c10_queue_preconditions planOracle0 lipmOracle3 ⟨-1, -1⟩ 0 stateC10empty
    rfl).1 (by decide)

/-- Claim C9: after planning, the swing foot's target pose is the second
queued footstep's raw pose when that footstep's support label is `BOTH_FEET`;
otherwise that pose offset laterally by the configured lateral offset
`foot_y_offset`, positive for the right swing foot (first entry supported on
the left) and negative for the left swing foot; the foot not currently
targeted keeps its previous target and delta. -/
theorem spec_c9_swing_target (planO : PlanOracle) (lipmO : LipmOracle)
    (gp : Point2q) (go : ℚ) (s : WalkingState) (f0 f1 : FootStep)
    (hi : s.initialized = true)
    (h0 : (set_goal_branch planO gp go s).foot_steps.get? 0 = some f0)
    (h1 : (set_goal_branch planO gp go s).foot_steps.get? 1 = some f1) :
    ∃ s', set_goal planO lipmO gp go s = some s' ∧
      (f0.support_foot = SupportFoot.leftFoot →
        s'.right_foot_target =
          (if f1.support_foot = SupportFoot.bothFeet then
            (⟨f1.position.x, f1.position.y, f1.rotation⟩ : Pose3)
          else ⟨f1.position.x, f1.position.y + s.foot_y_offset, f1.rotation⟩) ∧
        s'.left_foot_target = s.left_foot_target ∧
        s'.left_offset_delta = s.left_offset_delta) ∧
      (f0.support_foot = SupportFoot.rightFoot →
        s'.left_foot_target =
          (if f1.support_foot = SupportFoot.bothFeet then
            (⟨f1.position.x, f1.position.y, f1.rotation⟩ : Pose3)
          else ⟨f1.position.x, f1.position.y - s.foot_y_offset, f1.rotation⟩) ∧
        s'.right_foot_target = s.right_foot_target ∧
        s'.right_offset_delta = s.right_offset_delta) ∧
      (f0.support_foot = SupportFoot.bothFeet →
        s'.left_foot_target = s.left_foot_target ∧
        s'.right_foot_target = s.right_foot_target ∧
        s'.left_offset_delta = s.left_offset_delta ∧
        s'.right_offset_delta = s.right_offset_delta) := by
  obtain ⟨-, hfy, -, -, -, -, -, -, -, -, hld, hrd, hlt, hrt, -, -⟩ :=
    set_goal_branch_only_status_and_queue planO gp go s
  rcases hsf : f0.support_foot with _ | _ | _
  · refine ⟨_, set_goal_eq_left planO lipmO gp go s f0 f1 hi h0 hsf h1, ?_, ?_, ?_⟩
    · intro _
      refine ⟨?_, ?_, ?_⟩
      · dsimp only
        rw [hfy]
      · exact hlt
      · exact hld
    · intro h
      exact SupportFoot.noConfusion h
    · intro h
      exact SupportFoot.noConfusion h
  · refine ⟨_, set_goal_eq_right planO lipmO gp go s f0 f1 hi h0 hsf h1, ?_, ?_, ?_⟩
    · intro h
      exact SupportFoot.noConfusion h
    · intro _
      refine ⟨?_, ?_, ?_⟩
      · dsimp only
        rw [hfy]
      · exact hrt
      · exact hrd
    · intro h
      exact SupportFoot.noConfusion h
  · refine ⟨_, set_goal_eq_both planO lipmO gp go s f0 hi h0 hsf, ?_, ?_, ?_⟩
    · intro h
      exact SupportFoot.noConfusion h
    · intro h
      exact SupportFoot.noConfusion h
    · intro _
      exact ⟨hlt, hrt, hld, hrd⟩

/-- A concrete initialized state with a two-entry queue: left support first,
then a `BOTH_FEET` step. -/
def stateC9 : WalkingState :=
  { initialWalkingState with
    initialized := true
    foot_y_offset := 3 / 100
    foot_steps := [stepLeft0, stepBoth1] }

/-- Witness for C9 at a concrete two-entry queue. -/
theorem spec_c9_swing_target_witness :
    ∃ s', set_goal planOracle0 lipmOracle3 ⟨-1, -1⟩ 0 stateC9 = some s' ∧
      (stepLeft0.support_foot = SupportFoot.leftFoot →
        s'.right_foot_target =
          (if stepBoth1.support_foot = SupportFoot.bothFeet then
            (⟨stepBoth1.position.x, stepBoth1.position.y, stepBoth1.rotation⟩ : Pose3)
          else ⟨stepBoth1.position.x, stepBoth1.position.y + stateC9.foot_y_offset,
            stepBoth1.rotation⟩) ∧
        s'.left_foot_target = stateC9.left_foot_target ∧
        s'.left_offset_delta = stateC9.left_offset_delta) ∧
      (stepLeft0.support_foot = SupportFoot.rightFoot →
        s'.left_foot_target =
          (if stepBoth1.support_foot = SupportFoot.bothFeet then
            (⟨stepBoth1.position.x, stepBoth1.position.y, stepBoth1.rotation⟩ : Pose3)
          else ⟨stepBoth1.position.x, stepBoth1.position.y - stateC9.foot_y_offset,
            stepBoth1.rotation⟩) ∧
        s'.right_foot_target = stateC9.right_foot_target ∧
        s'.right_offset_delta = stateC9.right_offset_delta) ∧
      (stepLeft0.support_foot = SupportFoot.bothFeet →
        s'.left_foot_target = stateC9.left_foot_target ∧
        s'.right_foot_target = stateC9.right_foot_target ∧
        s'.left_offset_delta = stateC9.left_offset_delta ∧
        s'.right_offset_delta = stateC9.right_offset_delta) :=
  spec_c9_swing_target planOracle0 lipmOracle3 ⟨-1, -1⟩ 0 stateC9 stepLeft0 stepBoth1
    rfl rfl rfl

/-- Claim C2: across one `update_joints` tick, both lift heights stay
nonnegative (given a nonnegative configured `foot_height`); the swing foot's
lift rises by exactly `foot_height / ssp_duration` while
`ssp_start < diff ≤ ssp_end`, and outside that window a lift at most one
step from the ground is lowered to exactly 0 (the `max(..., 0)` floor); the
support foot's lift is untouched. -/
theorem spec_c2_lift_profile (solver : IKSolver) (planO : PlanOracle)
    (lipmO : LipmOracle) (s : WalkingState) (c : CoMSample) (rest : List CoMSample)
    (f0 f1 : FootStep) (hi : s.initialized = true)
    (hc : s.com_trajectory = c :: rest)
    (h0 : s.foot_steps.get? 0 = some f0) (h1 : s.foot_steps.get? 1 = some f1)
    (hfh : 0 ≤ s.foot_height) (hl : 0 ≤ s.left_up) (hr : 0 ≤ s.right_up) :
    ∃ s', update_joints solver planO lipmO s = some s' ∧
      0 ≤ s'.left_up ∧ 0 ≤ s'.right_up ∧
      (f0.support_foot = SupportFoot.leftFoot →
        s'.left_up = s.left_up ∧
        (sspStartOf s < diffOf s f0 f1 rest ∧
            diffOf s f0 f1 rest ≤ sspEndOf s f0 f1 →
          s'.right_up = s.right_up + s.foot_height / sspDurationOf s f0 f1) ∧
        (¬(sspStartOf s < diffOf s f0 f1 rest ∧
            diffOf s f0 f1 rest ≤ sspEndOf s f0 f1) →
          s.right_up ≤ s.foot_height / sspDurationOf s f0 f1 →
          s'.right_up = 0)) ∧
      (f0.support_foot = SupportFoot.rightFoot →
        s'.right_up = s.right_up ∧
        (sspStartOf s < diffOf s f0 f1 rest ∧
            diffOf s f0 f1 rest ≤ sspEndOf s f0 f1 →
          s'.left_up = s.left_up + s.foot_height / sspDurationOf s f0 f1) ∧
        (¬(sspStartOf s < diffOf s f0 f1 rest ∧
            diffOf s f0 f1 rest ≤ sspEndOf s f0 f1) →
          s.left_up ≤ s.foot_height / sspDurationOf s f0 f1 →
          s'.left_up = 0)) ∧
      (f0.support_foot = SupportFoot.bothFeet →
        s'.left_up = s.left_up ∧ s'.right_up = s.right_up) := by
  have key : ∀ u : ℚ, 0 ≤ u →
      0 ≤ (if sspStartOf s < diffOf s f0 f1 rest ∧
            diffOf s f0 f1 rest ≤ sspEndOf s f0 f1 then
          u + s.foot_height / sspDurationOf s f0 f1
        else if 0 < u then
          max (u - s.foot_height / sspDurationOf s f0 f1) 0
        else u) := by
    intro u hu
    split_ifs with hw hpos
    · have hdur : 0 < sspDurationOf s f0 f1 := by
        unfold sspDurationOf
        have := hw.1
        have := hw.2
        linarith
      have : 0 ≤ s.foot_height / sspDurationOf s f0 f1 := div_nonneg hfh hdur.le
      linarith
    · exact le_max_right _ _
    · exact hu
  have keyzero : ∀ u : ℚ, 0 ≤ u →
      ¬(sspStartOf s < diffOf s f0 f1 rest ∧
        diffOf s f0 f1 rest ≤ sspEndOf s f0 f1) →
      u ≤ s.foot_height / sspDurationOf s f0 f1 →
      (if sspStartOf s < diffOf s f0 f1 rest ∧
            diffOf s f0 f1 rest ≤ sspEndOf s f0 f1 then
          u + s.foot_height / sspDurationOf s f0 f1
        else if 0 < u then
          max (u - s.foot_height / sspDurationOf s f0 f1) 0
        else u) = 0 := by
    intro u hu hnw hsmall
    rw [if_neg hnw]
    split_ifs with hpos
    · exact max_eq_right (by linarith)
    · linarith
  refine ⟨_, update_joints_eq solver planO lipmO s c rest f0 f1 hi hc h0 h1,
    ?_, ?_, ?_, ?_, ?_⟩
  · show 0 ≤ (tick_core s rest f0 f1).left_up
    rcases hsf : f0.support_foot with _ | _ | _
    · rw [tick_core_left_up_of_left s rest f0 f1 hsf]
      exact hl
    · rw [tick_core_left_up_of_right s rest f0 f1 hsf]
      exact key _ hl
    · rw [(tick_core_ups_of_both s rest f0 f1 hsf).1]
      exact hl
  · show 0 ≤ (tick_core s rest f0 f1).right_up
    rcases hsf : f0.support_foot with _ | _ | _
    · rw [tick_core_right_up_of_left s rest f0 f1 hsf]
      exact key _ hr
    · rw [tick_core_right_up_of_right s rest f0 f1 hsf]
      exact hr
    · rw [(tick_core_ups_of_both s rest f0 f1 hsf).2]
      exact hr
  · intro hsf
    refine ⟨?_, ?_, ?_⟩
    · show (tick_core s rest f0 f1).left_up = s.left_up
      exact tick_core_left_up_of_left s rest f0 f1 hsf
    · intro hw
      show (tick_core s rest f0 f1).right_up = _
      rw [tick_core_right_up_of_left s rest f0 f1 hsf, if_pos hw]
    · intro hnw hsmall
      show (tick_core s rest f0 f1).right_up = 0
      rw [tick_core_right_up_of_left s rest f0 f1 hsf]
      exact keyzero _ hr hnw hsmall
  · intro hsf
    refine ⟨?_, ?_, ?_⟩
    · show (tick_core s rest f0 f1).right_up = s.right_up
      exact tick_core_right_up_of_right s rest f0 f1 hsf
    · intro hw
      show (tick_core s rest f0 f1).left_up = _
      rw [tick_core_left_up_of_right s rest f0 f1 hsf, if_pos hw]
    · intro hnw hsmall
      show (tick_core s rest f0 f1).left_up = 0
      rw [tick_core_left_up_of_right s rest f0 f1 hsf]
      exact keyzero _ hl hnw hsmall
  · intro hsf
    exact ⟨(tick_core_ups_of_both s rest f0 f1 hsf).1,
      (tick_core_ups_of_both s rest f0 f1 hsf).2⟩

/-- A concrete initialized state for single-tick witnesses: left-support
first footstep, three CoM samples pending, lift heights zero. -/
def stateC2 : WalkingState :=
  { initialWalkingState with
    initialized := true
    dsp_duration := 1 / 50
    foot_height := 1 / 50
    foot_steps := [stepLeft0, stepBoth1]
    com_trajectory := [⟨0, 0⟩, ⟨0, 0⟩, ⟨0, 0⟩] }

/-- Witness for C2 at a concrete tick. -/
theorem spec_c2_lift_profile_witness :
    ∃ s', update_joints realSolver planOracle0 lipmOracle3 stateC2 = some s' ∧
      0 ≤ s'.left_up ∧ 0 ≤ s'.right_up ∧
      (stepLeft0.support_foot = SupportFoot.leftFoot →
        s'.left_up = stateC2.left_up ∧
        (sspStartOf stateC2 < diffOf stateC2 stepLeft0 stepBoth1 [⟨0, 0⟩, ⟨0, 0⟩] ∧
            diffOf stateC2 stepLeft0 stepBoth1 [⟨0, 0⟩, ⟨0, 0⟩] ≤
              sspEndOf stateC2 stepLeft0 stepBoth1 →
          s'.right_up = stateC2.right_up +
            stateC2.foot_height / sspDurationOf stateC2 stepLeft0 stepBoth1) ∧
        (¬(sspStartOf stateC2 < diffOf stateC2 stepLeft0 stepBoth1 [⟨0, 0⟩, ⟨0, 0⟩] ∧
            diffOf stateC2 stepLeft0 stepBoth1 [⟨0, 0⟩, ⟨0, 0⟩] ≤
              sspEndOf stateC2 stepLeft0 stepBoth1) →
          stateC2.right_up ≤
            stateC2.foot_height / sspDurationOf stateC2 stepLeft0 stepBoth1 →
          s'.right_up = 0)) ∧
      (stepLeft0.support_foot = SupportFoot.rightFoot →
        s'.right_up = stateC2.right_up ∧
        (sspStartOf stateC2 < diffOf stateC2 stepLeft0 stepBoth1 [⟨0, 0⟩, ⟨0, 0⟩] ∧
            diffOf stateC2 stepLeft0 stepBoth1 [⟨0, 0⟩, ⟨0, 0⟩] ≤
              sspEndOf stateC2 stepLeft0 stepBoth1 →
          s'.left_up = stateC2.left_up +
            stateC2.foot_height / sspDurationOf stateC2 stepLeft0 stepBoth1) ∧
        (¬(sspStartOf stateC2 < diffOf stateC2 stepLeft0 stepBoth1 [⟨0, 0⟩, ⟨0, 0⟩] ∧
            diffOf stateC2 stepLeft0 stepBoth1 [⟨0, 0⟩, ⟨0, 0⟩] ≤
              sspEndOf stateC2 stepLeft0 stepBoth1) →
          stateC2.left_up ≤
            stateC2.foot_height / sspDurationOf stateC2 stepLeft0 stepBoth1 →
          s'.left_up = 0)) ∧
      (stepLeft0.support_foot = SupportFoot.bothFeet →
        s'.left_up = stateC2.left_up ∧ s'.right_up = stateC2.right_up) :=
  spec_c2_lift_profile realSolver planOracle0 lipmOracle3 stateC2 ⟨0, 0⟩
    [⟨0, 0⟩, ⟨0, 0⟩] stepLeft0 stepBoth1 rfl rfl rfl rfl
    (by norm_num [stateC2, initialWalkingState]) (by norm_num [stateC2, initialWalkingState])
    (by norm_num [stateC2, initialWalkingState])

/-- Claim C5: on an initialized tick whose IK solve faults, the fault is
caught at the control-loop boundary: the tick still completes (`some`), the
kinematics angle array keeps its previous values, the published joint angles
equal the previous tick's values (given the published array was in sync with
the angle array, as every completed tick leaves it), and the controller stays
initialized so subsequent ticks proceed. -/
theorem spec_c5_solver_fault_liveness (solver : IKSolver) (planO : PlanOracle)
    (lipmO : LipmOracle) (s : WalkingState) (c : CoMSample) (rest : List CoMSample)
    (f0 f1 : FootStep) (hi : s.initialized = true)
    (hc : s.com_trajectory = c :: rest)
    (h0 : s.foot_steps.get? 0 = some f0) (h1 : s.foot_steps.get? 1 = some f1)
    (hsync : s.joints = fun id => s.kin_angles id * (180 / Real.pi))
    (hfault : solver (tick_core s rest f0 f1).kin_config
      (tick_core s rest f0 f1).kin_angles
      (tick_feet (tick_core s rest f0 f1) c).1
      (tick_feet (tick_core s rest f0 f1) c).2 = none) :
    ∃ s', update_joints solver planO lipmO s = some s' ∧
      s'.joints = s.joints ∧ s'.kin_angles = s.kin_angles ∧
      s'.initialized = true := by
  refine ⟨_, update_joints_eq solver planO lipmO s c rest f0 f1 hi hc h0 h1,
    ?_, ?_, ?_⟩
  · show (fun id =>
        ((solver (tick_core s rest f0 f1).kin_config
          (tick_core s rest f0 f1).kin_angles
          (tick_feet (tick_core s rest f0 f1) c).1
          (tick_feet (tick_core s rest f0 f1) c).2).getD
          (tick_core s rest f0 f1).kin_angles) id * (180 / Real.pi)) = s.joints
    rw [hfault, Option.getD_none, tick_core_kin_angles, hsync]
  · show ((solver (tick_core s rest f0 f1).kin_config
        (tick_core s rest f0 f1).kin_angles
        (tick_feet (tick_core s rest f0 f1) c).1
        (tick_feet (tick_core s rest f0 f1) c).2).getD
        (tick_core s rest f0 f1).kin_angles) = s.kin_angles
    rw [hfault, Option.getD_none, tick_core_kin_angles]
  · show (tick_core s rest f0 f1).initialized = true
    rw [tick_core_initialized]
    exact hi

/-- An always-faulting solver, standing for a tick on which the IK step
throws. -/
def faultSolver : IKSolver := fun _ _ _ _ => none

/-- Witness for C5 at a concrete tick with an injected solver fault. -/
theorem spec_c5_solver_fault_liveness_witness :
    ∃ s', update_joints faultSolver planOracle0 lipmOracle3 stateC2 = some s' ∧
      s'.joints = stateC2.joints ∧ s'.kin_angles = stateC2.kin_angles ∧
      s'.initialized = true :=
  spec_c5_solver_fault_liveness faultSolver planOracle0 lipmOracle3 stateC2
    ⟨0, 0⟩ [⟨0, 0⟩, ⟨0, 0⟩] stepLeft0 stepBoth1 rfl rfl rfl rfl
    (by
      funext id
      show (0 : ℝ) = 0 * (180 / Real.pi)
      rw [zero_mul])
    rfl

/-- A concrete footstep labelled `BOTH_FEET` at time 0. -/
def stepBoth0 : FootStep := ⟨⟨0, 0⟩, 0, 0, SupportFoot.bothFeet⟩

/-- A concrete initialized state whose published `NECK_YAW` angle was driven
to 10 degrees by an external writer, while the kinematics angle array still
holds 0 for it. -/
def stateC6 : WalkingState :=
  { initialWalkingState with
    initialized := true
    foot_steps := [stepBoth0, stepBoth1]
    com_trajectory := [⟨0, 0⟩, ⟨0, 0⟩]
    joints := fun id => if id = JointId.NECK_YAW then 10 else 0 }

/-- Counterexample to claim C6 as stated: the copy at the end of
`update_joints` does not leave unmanaged joints untouched — a previously held
`NECK_YAW` value of 10 is overwritten with the kinematics array's 0 on the
very next tick. -/
theorem spec_c6_counterexample :
    stateC6.joints JointId.NECK_YAW = 10 ∧
      ∃ s', update_joints realSolver planOracle0 lipmOracle3 stateC6 = some s' ∧
        s'.joints JointId.NECK_YAW = 0 := by
  constructor
  · show (if JointId.NECK_YAW = JointId.NECK_YAW then (10 : ℝ) else 0) = 10
    rw [if_pos rfl]
  · obtain ⟨out, hout, hny, -⟩ := solve_inverse_kinematics_total
      (tick_core stateC6 [⟨0, 0⟩] stepBoth0 stepBoth1).kin_config
      (tick_core stateC6 [⟨0, 0⟩] stepBoth0 stepBoth1).kin_angles
      (tick_feet (tick_core stateC6 [⟨0, 0⟩] stepBoth0 stepBoth1) ⟨0, 0⟩).1
      (tick_feet (tick_core stateC6 [⟨0, 0⟩] stepBoth0 stepBoth1) ⟨0, 0⟩).2
    have hout' : realSolver
        (tick_core stateC6 [⟨0, 0⟩] stepBoth0 stepBoth1).kin_config
        (tick_core stateC6 [⟨0, 0⟩] stepBoth0 stepBoth1).kin_angles
        (tick_feet (tick_core stateC6 [⟨0, 0⟩] stepBoth0 stepBoth1) ⟨0, 0⟩).1
        (tick_feet (tick_core stateC6 [⟨0, 0⟩] stepBoth0 stepBoth1) ⟨0, 0⟩).2 =
        some out := hout
    refine ⟨_, update_joints_eq realSolver planOracle0 lipmOracle3 stateC6 ⟨0, 0⟩
      [⟨0, 0⟩] stepBoth0 stepBoth1 rfl rfl rfl rfl, ?_⟩
    show ((realSolver
        (tick_core stateC6 [⟨0, 0⟩] stepBoth0 stepBoth1).kin_config
        (tick_core stateC6 [⟨0, 0⟩] stepBoth0 stepBoth1).kin_angles
        (tick_feet (tick_core stateC6 [⟨0, 0⟩] stepBoth0 stepBoth1) ⟨0, 0⟩).1
        (tick_feet (tick_core stateC6 [⟨0, 0⟩] stepBoth0 stepBoth1) ⟨0, 0⟩).2).getD
        (tick_core stateC6 [⟨0, 0⟩] stepBoth0 stepBoth1).kin_angles)
        JointId.NECK_YAW * (180 / Real.pi) = 0
    rw [hout', Option.getD_some, hny, tick_core_kin_angles]
    show (0 : ℝ) * (180 / Real.pi) = 0
    exact zero_mul _

/-- Claim C6 (amended): each tick's final copy rewrites every published joint
from the kinematics angle array (head joints included), so unmanaged joints
do not retain externally written values; they are reset to the angle array's
entries, which the solver leaves untouched for the head (and which stay at
their reset value 0 unless separately maintained). -/
theorem spec_c6_joint_publish (planO : PlanOracle) (lipmO : LipmOracle)
    (s : WalkingState) (c : CoMSample) (rest : List CoMSample) (f0 f1 : FootStep)
    (hi : s.initialized = true) (hc : s.com_trajectory = c :: rest)
    (h0 : s.foot_steps.get? 0 = some f0) (h1 : s.foot_steps.get? 1 = some f1) :
    ∃ s', update_joints realSolver planO lipmO s = some s' ∧
      s'.joints = (fun id => s'.kin_angles id * (180 / Real.pi)) ∧
      s'.kin_angles JointId.NECK_YAW = s.kin_angles JointId.NECK_YAW ∧
      s'.kin_angles JointId.NECK_PITCH = s.kin_angles JointId.NECK_PITCH ∧
      s'.joints JointId.NECK_YAW = s.kin_angles JointId.NECK_YAW * (180 / Real.pi) := by
  obtain ⟨out, hout, hny, hnp⟩ := solve_inverse_kinematics_total
    (tick_core s rest f0 f1).kin_config (tick_core s rest f0 f1).kin_angles
    (tick_feet (tick_core s rest f0 f1) c).1 (tick_feet (tick_core s rest f0 f1) c).2
  have hout' : realSolver (tick_core s rest f0 f1).kin_config
      (tick_core s rest f0 f1).kin_angles
      (tick_feet (tick_core s rest f0 f1) c).1
      (tick_feet (tick_core s rest f0 f1) c).2 = some out := hout
  refine ⟨_, update_joints_eq realSolver planO lipmO s c rest f0 f1 hi hc h0 h1,
    ?_, ?_, ?_, ?_⟩
  · rfl
  · show ((realSolver (tick_core s rest f0 f1).kin_config
        (tick_core s rest f0 f1).kin_angles
        (tick_feet (tick_core s rest f0 f1) c).1
        (tick_feet (tick_core s rest f0 f1) c).2).getD
        (tick_core s rest f0 f1).kin_angles) JointId.NECK_YAW =
      s.kin_angles JointId.NECK_YAW
    rw [hout', Option.getD_some, hny, tick_core_kin_angles]
  · show ((realSolver (tick_core s rest f0 f1).kin_config
        (tick_core s rest f0 f1).kin_angles
        (tick_feet (tick_core s rest f0 f1) c).1
        (tick_feet (tick_core s rest f0 f1) c).2).getD
        (tick_core s rest f0 f1).kin_angles) JointId.NECK_PITCH =
      s.kin_angles JointId.NECK_PITCH
    rw [hout', Option.getD_some, hnp, tick_core_kin_angles]
  · show ((realSolver (tick_core s rest f0 f1).kin_config
        (tick_core s rest f0 f1).kin_angles
        (tick_feet (tick_core s rest f0 f1) c).1
        (tick_feet (tick_core s rest f0 f1) c).2).getD
        (tick_core s rest f0 f1).kin_angles) JointId.NECK_YAW * (180 / Real.pi) =
      s.kin_angles JointId.NECK_YAW * (180 / Real.pi)
    rw [hout', Option.getD_some, hny, tick_core_kin_angles]

/-- Witness for the amended C6 at a concrete tick. -/
theorem spec_c6_joint_publish_witness :
    ∃ s', update_joints realSolver planOracle0 lipmOracle3 stateC2 = some s' ∧
      s'.joints = (fun id => s'.kin_angles id * (180 / Real.pi)) ∧
      s'.kin_angles JointId.NECK_YAW = stateC2.kin_angles JointId.NECK_YAW ∧
      s'.kin_angles JointId.NECK_PITCH = stateC2.kin_angles JointId.NECK_PITCH ∧
      s'.joints JointId.NECK_YAW =
        stateC2.kin_angles JointId.NECK_YAW * (180 / Real.pi) :=
  spec_c6_joint_publish planOracle0 lipmOracle3 stateC2 ⟨0, 0⟩ [⟨0, 0⟩, ⟨0, 0⟩]
    stepLeft0 stepBoth1 rfl rfl rfl rfl

/-! ## Helper lemmas: offset interpolation across iterated ticks -/

theorem Pose3.addScaled_zero (o q : Pose3) : o.addScaled 0 q = o := by
  cases o
  simp [Pose3.addScaled]

theorem Pose3.addScaled_shift (o q : Pose3) (m : ℚ) :
    (o.add q).addScaled m q = o.addScaled (m + 1) q := by
  cases o
  cases q
  simp only [Pose3.addScaled, Pose3.add, Pose3.mk.injEq]
  refine ⟨by ring, by ring, by ring⟩

theorem Pose3.addScaled_div_self (o t : Pose3) (q : ℚ) (hq : q ≠ 0) :
    o.addScaled q ((t.sub o).scaleDiv q) = t := by
  cases o
  cases t
  simp only [Pose3.addScaled, Pose3.sub, Pose3.scaleDiv, Pose3.mk.injEq]
  refine ⟨?_, ?_, ?_⟩ <;> field_simp

theorem Pose3.withinTol_self (p : Pose3) (eps : ℚ) (h : 0 ≤ eps) :
    Pose3.withinTol p p eps := by
  unfold Pose3.withinTol
  simp only [sub_self, abs_zero]
  exact ⟨h, h, h⟩

theorem iterate_ticks_succ (solver : IKSolver) (planO : PlanOracle)
    (lipmO : LipmOracle) (m : ℕ) (u u1 : WalkingState)
    (h : update_joints solver planO lipmO u = some u1) :
    iterate_ticks solver planO lipmO (m + 1) u =
      iterate_ticks solver planO lipmO m u1 := by
  show (match update_joints solver planO lipmO u with
    | none => none
    | some s' => iterate_ticks solver planO lipmO m s') =
    iterate_ticks solver planO lipmO m u1
  rw [h]

theorem update_tick_params (solver : IKSolver) (planO : PlanOracle)
    (lipmO : LipmOracle) (u : WalkingState) (c : CoMSample) (rest : List CoMSample)
    (f0 f1 : FootStep) (hi : u.initialized = true)
    (hc : u.com_trajectory = c :: rest)
    (h0 : u.foot_steps.get? 0 = some f0) (h1 : u.foot_steps.get? 1 = some f1) :
    ∃ u1, update_joints solver planO lipmO u = some u1 ∧
      u1.initialized = true ∧
      u1.foot_steps = u.foot_steps ∧
      u1.com_trajectory = rest ∧
      sspStartOf u1 = sspStartOf u ∧
      stepPeriodOf u1 f0 f1 = stepPeriodOf u f0 f1 ∧
      sspDurationOf u1 f0 f1 = sspDurationOf u f0 f1 ∧
      u1.step_frames = u.step_frames ∧
      u1.right_foot_target = u.right_foot_target ∧
      u1.right_offset_delta = u.right_offset_delta ∧
      u1.left_foot_target = u.left_foot_target ∧
      u1.left_offset_delta = u.left_offset_delta ∧
      u1.right_offset = (tick_core u rest f0 f1).right_offset ∧
      u1.left_offset = (tick_core u rest f0 f1).left_offset := by
  refine ⟨_, update_joints_eq solver planO lipmO u c rest f0 f1 hi hc h0 h1,
    ?_, ?_, ?_, ?_, ?_, ?_, ?_, ?_, ?_, ?_, ?_, ?_, ?_⟩
  · show (tick_core u rest f0 f1).initialized = true
    rw [tick_core_initialized]
    exact hi
  · exact tick_core_foot_steps u rest f0 f1
  · exact tick_core_com_trajectory u rest f0 f1
  · show cround ((tick_core u rest f0 f1).dsp_duration /
        (2 * (tick_core u rest f0 f1).time_step)) = sspStartOf u
    rw [tick_core_dsp_duration, tick_core_time_step]
    rfl
  · show cround ((f1.time - f0.time) / (tick_core u rest f0 f1).time_step) =
      stepPeriodOf u f0 f1
    rw [tick_core_time_step]
    rfl
  · show cround (cround ((f1.time - f0.time) /
          (tick_core u rest f0 f1).time_step) / 2) -
        cround ((tick_core u rest f0 f1).dsp_duration /
          (2 * (tick_core u rest f0 f1).time_step)) = sspDurationOf u f0 f1
    rw [tick_core_time_step, tick_core_dsp_duration]
    rfl
  · exact tick_core_step_frames u rest f0 f1
  · exact tick_core_right_foot_target u rest f0 f1
  · exact tick_core_right_offset_delta u rest f0 f1
  · exact tick_core_left_foot_target u rest f0 f1
  · exact tick_core_left_offset_delta u rest f0 f1
  · rfl
  · rfl

theorem iterate_snapped_right (solver : IKSolver) (planO : PlanOracle)
    (lipmO : LipmOracle) (f0 f1 : FootStep)
    (hsup : f0.support_foot = SupportFoot.leftFoot) :
    ∀ (m : ℕ) (u : WalkingState),
      u.initialized = true →
      u.foot_steps.get? 0 = some f0 →
      u.foot_steps.get? 1 = some f1 →
      m ≤ u.com_trajectory.length →
      sspStartOf u < stepPeriodOf u f0 f1 - (u.com_trajectory.length : ℚ) + 1 →
      sspStartOf u + sspDurationOf u f0 f1 * 2 <
        stepPeriodOf u f0 f1 - (u.com_trajectory.length : ℚ) + 1 →
      u.right_offset = u.right_foot_target →
      ∃ u', iterate_ticks solver planO lipmO m u = some u' ∧
        u'.right_offset = u.right_foot_target ∧
        u'.right_foot_target = u.right_foot_target := by
  intro m
  induction m with
  | zero =>
    intro u _ _ _ _ _ _ hoff
    exact ⟨u, rfl, hoff, rfl⟩
  | succ m ih =>
    intro u hi h0 h1 hlen hwin hsnap hoff
    obtain ⟨c, rest, hcom⟩ : ∃ c rest, u.com_trajectory = c :: rest := by
      cases hc : u.com_trajectory with
      | nil =>
        rw [hc] at hlen
        exact absurd hlen (by simp)
      | cons c rest => exact ⟨c, rest, rfl⟩
    obtain ⟨u1, hupd, hini1, hfs1, hcom1, hst1, hP1, hdur1, hsf1, hrt1, hrd1,
      hlt1, hld1, hro1, hlo1⟩ :=
      update_tick_params solver planO lipmO u c rest f0 f1 hi hcom h0 h1
    have hlenq : (u.com_trajectory.length : ℚ) = (rest.length : ℚ) + 1 := by
      rw [hcom]
      push_cast [List.length_cons]
      ring
    have hdiff_win : sspStartOf u < diffOf u f0 f1 rest := by
      unfold diffOf
      rw [hlenq] at hwin
      linarith
    have hdiff_snap : sspStartOf u + sspDurationOf u f0 f1 * 2 <
        diffOf u f0 f1 rest := by
      unfold diffOf
      rw [hlenq] at hsnap
      linarith
    have hro : u1.right_offset = u.right_foot_target := by
      rw [hro1, tick_core_right_offset_of_left u rest f0 f1 hsup,
        if_pos hdiff_win, if_pos hdiff_snap]
    have hwin1 : sspStartOf u1 <
        stepPeriodOf u1 f0 f1 - (u1.com_trajectory.length : ℚ) + 1 := by
      rw [hst1, hP1, hcom1]
      unfold diffOf at hdiff_win
      linarith
    have hsnap1 : sspStartOf u1 + sspDurationOf u1 f0 f1 * 2 <
        stepPeriodOf u1 f0 f1 - (u1.com_trajectory.length : ℚ) + 1 := by
      rw [hst1, hP1, hdur1, hcom1]
      unfold diffOf at hdiff_snap
      linarith
    have hlen1 : m ≤ u1.com_trajectory.length := by
      rw [hcom1]
      rw [hcom] at hlen
      simp only [List.length_cons] at hlen
      omega
    obtain ⟨u', hiter, ho', ht'⟩ := ih u1 hini1 (by rw [hfs1]; exact h0)
      (by rw [hfs1]; exact h1) hlen1 hwin1 hsnap1 (by rw [hro, hrt1])
    refine ⟨u', ?_, ?_, ?_⟩
    · rw [iterate_ticks_succ solver planO lipmO m u u1 hupd]
      exact hiter
    · rw [ho', hrt1]
    · rw [ht', hrt1]

theorem iterate_snapped_left (solver : IKSolver) (planO : PlanOracle)
    (lipmO : LipmOracle) (f0 f1 : FootStep)
    (hsup : f0.support_foot = SupportFoot.rightFoot) :
    ∀ (m : ℕ) (u : WalkingState),
      u.initialized = true →
      u.foot_steps.get? 0 = some f0 →
      u.foot_steps.get? 1 = some f1 →
      m ≤ u.com_trajectory.length →
      sspStartOf u < stepPeriodOf u f0 f1 - (u.com_trajectory.length : ℚ) + 1 →
      sspStartOf u + sspDurationOf u f0 f1 * 2 <
        stepPeriodOf u f0 f1 - (u.com_trajectory.length : ℚ) + 1 →
      u.left_offset = u.left_foot_target →
      ∃ u', iterate_ticks solver planO lipmO m u = some u' ∧
        u'.left_offset = u.left_foot_target ∧
        u'.left_foot_target = u.left_foot_target := by
  intro m
  induction m with
  | zero =>
    intro u _ _ _ _ _ _ hoff
    exact ⟨u, rfl, hoff, rfl⟩
  | succ m ih =>
    intro u hi h0 h1 hlen hwin hsnap hoff
    obtain ⟨c, rest, hcom⟩ : ∃ c rest, u.com_trajectory = c :: rest := by
      cases hc : u.com_trajectory with
      | nil =>
        rw [hc] at hlen
        exact absurd hlen (by simp)
      | cons c rest => exact ⟨c, rest, rfl⟩
    obtain ⟨u1, hupd, hini1, hfs1, hcom1, hst1, hP1, hdur1, hsf1, hrt1, hrd1,
      hlt1, hld1, hro1, hlo1⟩ :=
      update_tick_params solver planO lipmO u c rest f0 f1 hi hcom h0 h1
    have hlenq : (u.com_trajectory.length : ℚ) = (rest.length : ℚ) + 1 := by
      rw [hcom]
      push_cast [List.length_cons]
      ring
    have hdiff_win : sspStartOf u < diffOf u f0 f1 rest := by
      unfold diffOf
      rw [hlenq] at hwin
      linarith
    have hdiff_snap : sspStartOf u + sspDurationOf u f0 f1 * 2 <
        diffOf u f0 f1 rest := by
      unfold diffOf
      rw [hlenq] at hsnap
      linarith
    have hlo : u1.left_offset = u.left_foot_target := by
      rw [hlo1, tick_core_left_offset_of_right u rest f0 f1 hsup,
        if_pos hdiff_win, if_pos hdiff_snap]
    have hwin1 : sspStartOf u1 <
        stepPeriodOf u1 f0 f1 - (u1.com_trajectory.length : ℚ) + 1 := by
      rw [hst1, hP1, hcom1]
      unfold diffOf at hdiff_win
      linarith
    have hsnap1 : sspStartOf u1 + sspDurationOf u1 f0 f1 * 2 <
        stepPeriodOf u1 f0 f1 - (u1.com_trajectory.length : ℚ) + 1 := by
      rw [hst1, hP1, hdur1, hcom1]
      unfold diffOf at hdiff_snap
      linarith
    have hlen1 : m ≤ u1.com_trajectory.length := by
      rw [hcom1]
      rw [hcom] at hlen
      simp only [List.length_cons] at hlen
      omega
    obtain ⟨u', hiter, ho', ht'⟩ := ih u1 hini1 (by rw [hfs1]; exact h0)
      (by rw [hfs1]; exact h1) hlen1 hwin1 hsnap1 (by rw [hlo, hlt1])
    refine ⟨u', ?_, ?_, ?_⟩
    · rw [iterate_ticks_succ solver planO lipmO m u u1 hupd]
      exact hiter
    · rw [ho', hlt1]
    · rw [ht', hlt1]

theorem iterate_moving_right (solver : IKSolver) (planO : PlanOracle)
    (lipmO : LipmOracle) (f0 f1 : FootStep)
    (hsup : f0.support_foot = SupportFoot.leftFoot) :
    ∀ (m : ℕ) (u : WalkingState),
      u.initialized = true →
      u.foot_steps.get? 0 = some f0 →
      u.foot_steps.get? 1 = some f1 →
      m ≤ u.com_trajectory.length →
      sspStartOf u < stepPeriodOf u f0 f1 - (u.com_trajectory.length : ℚ) + 1 →
      ∃ u', iterate_ticks solver planO lipmO m u = some u' ∧
        u'.right_foot_target = u.right_foot_target ∧
        (u'.right_offset = u.right_offset.addScaled (m : ℚ) u.right_offset_delta ∨
          u'.right_offset = u.right_foot_target) := by
  intro m
  induction m with
  | zero =>
    intro u _ _ _ _ _
    refine ⟨u, rfl, rfl, Or.inl ?_⟩
    push_cast
    rw [Pose3.addScaled_zero]
  | succ m ih =>
    intro u hi h0 h1 hlen hwin
    obtain ⟨c, rest, hcom⟩ : ∃ c rest, u.com_trajectory = c :: rest := by
      cases hc : u.com_trajectory with
      | nil =>
        rw [hc] at hlen
        exact absurd hlen (by simp)
      | cons c rest => exact ⟨c, rest, rfl⟩
    obtain ⟨u1, hupd, hini1, hfs1, hcom1, hst1, hP1, hdur1, hsf1, hrt1, hrd1,
      hlt1, hld1, hro1, hlo1⟩ :=
      update_tick_params solver planO lipmO u c rest f0 f1 hi hcom h0 h1
    have hlenq : (u.com_trajectory.length : ℚ) = (rest.length : ℚ) + 1 := by
      rw [hcom]
      push_cast [List.length_cons]
      ring
    have hdiff_win : sspStartOf u < diffOf u f0 f1 rest := by
      unfold diffOf
      rw [hlenq] at hwin
      linarith
    have hwin1 : sspStartOf u1 <
        stepPeriodOf u1 f0 f1 - (u1.com_trajectory.length : ℚ) + 1 := by
      rw [hst1, hP1, hcom1]
      unfold diffOf at hdiff_win
      linarith
    have hlen1 : m ≤ u1.com_trajectory.length := by
      rw [hcom1]
      rw [hcom] at hlen
      simp only [List.length_cons] at hlen
      omega
    by_cases hsn : sspStartOf u + sspDurationOf u f0 f1 * 2 < diffOf u f0 f1 rest
    · have hro : u1.right_offset = u.right_foot_target := by
        rw [hro1, tick_core_right_offset_of_left u rest f0 f1 hsup,
          if_pos hdiff_win, if_pos hsn]
      have hsnap1 : sspStartOf u1 + sspDurationOf u1 f0 f1 * 2 <
          stepPeriodOf u1 f0 f1 - (u1.com_trajectory.length : ℚ) + 1 := by
        rw [hst1, hP1, hdur1, hcom1]
        unfold diffOf at hsn
        linarith
      obtain ⟨u', hiter, ho', ht'⟩ := iterate_snapped_right solver planO lipmO
        f0 f1 hsup m u1 hini1 (by rw [hfs1]; exact h0) (by rw [hfs1]; exact h1)
        hlen1 hwin1 hsnap1 (by rw [hro, hrt1])
      refine ⟨u', ?_, ?_, Or.inr ?_⟩
      · rw [iterate_ticks_succ solver planO lipmO m u u1 hupd]
        exact hiter
      · rw [ht', hrt1]
      · rw [ho', hrt1]
    · have hro : u1.right_offset = u.right_offset.add u.right_offset_delta := by
        rw [hro1, tick_core_right_offset_of_left u rest f0 f1 hsup,
          if_pos hdiff_win, if_neg hsn]
      obtain ⟨u', hiter, ht', ho'⟩ := ih u1 hini1 (by rw [hfs1]; exact h0)
        (by rw [hfs1]; exact h1) hlen1 hwin1
      refine ⟨u', ?_, ?_, ?_⟩
      · rw [iterate_ticks_succ solver planO lipmO m u u1 hupd]
        exact hiter
      · rw [ht', hrt1]
      · rcases ho' with ho' | ho'
        · refine Or.inl ?_
          rw [ho', hro, hrd1, Pose3.addScaled_shift]
          push_cast
          rfl
        · refine Or.inr ?_
          rw [ho', hrt1]

theorem iterate_moving_left (solver : IKSolver) (planO : PlanOracle)
    (lipmO : LipmOracle) (f0 f1 : FootStep)
    (hsup : f0.support_foot = SupportFoot.rightFoot) :
    ∀ (m : ℕ) (u : WalkingState),
      u.initialized = true →
      u.foot_steps.get? 0 = some f0 →
      u.foot_steps.get? 1 = some f1 →
      m ≤ u.com_trajectory.length →
      sspStartOf u < stepPeriodOf u f0 f1 - (u.com_trajectory.length : ℚ) + 1 →
      ∃ u', iterate_ticks solver planO lipmO m u = some u' ∧
        u'.left_foot_target = u.left_foot_target ∧
        (u'.left_offset = u.left_offset.addScaled (m : ℚ) u.left_offset_delta ∨
          u'.left_offset = u.left_foot_target) := by
  intro m
  induction m with
  | zero =>
    intro u _ _ _ _ _
    refine ⟨u, rfl, rfl, Or.inl ?_⟩
    push_cast
    rw [Pose3.addScaled_zero]
  | succ m ih =>
    intro u hi h0 h1 hlen hwin
    obtain ⟨c, rest, hcom⟩ : ∃ c rest, u.com_trajectory = c :: rest := by
      cases hc : u.com_trajectory with
      | nil =>
        rw [hc] at hlen
        exact absurd hlen (by simp)
      | cons c rest => exact ⟨c, rest, rfl⟩
    obtain ⟨u1, hupd, hini1, hfs1, hcom1, hst1, hP1, hdur1, hsf1, hrt1, hrd1,
      hlt1, hld1, hro1, hlo1⟩ :=
      update_tick_params solver planO lipmO u c rest f0 f1 hi hcom h0 h1
    have hlenq : (u.com_trajectory.length : ℚ) = (rest.length : ℚ) + 1 := by
      rw [hcom]
      push_cast [List.length_cons]
      ring
    have hdiff_win : sspStartOf u < diffOf u f0 f1 rest := by
      unfold diffOf
      rw [hlenq] at hwin
      linarith
    have hwin1 : sspStartOf u1 <
        stepPeriodOf u1 f0 f1 - (u1.com_trajectory.length : ℚ) + 1 := by
      rw [hst1, hP1, hcom1]
      unfold diffOf at hdiff_win
      linarith
    have hlen1 : m ≤ u1.com_trajectory.length := by
      rw [hcom1]
      rw [hcom] at hlen
      simp only [List.length_cons] at hlen
      omega
    by_cases hsn : sspStartOf u + sspDurationOf u f0 f1 * 2 < diffOf u f0 f1 rest
    · have hlo : u1.left_offset = u.left_foot_target := by
        rw [hlo1, tick_core_left_offset_of_right u rest f0 f1 hsup,
          if_pos hdiff_win, if_pos hsn]
      have hsnap1 : sspStartOf u1 + sspDurationOf u1 f0 f1 * 2 <
          stepPeriodOf u1 f0 f1 - (u1.com_trajectory.length : ℚ) + 1 := by
        rw [hst1, hP1, hdur1, hcom1]
        unfold diffOf at hsn
        linarith
      obtain ⟨u', hiter, ho', ht'⟩ := iterate_snapped_left solver planO lipmO
        f0 f1 hsup m u1 hini1 (by rw [hfs1]; exact h0) (by rw [hfs1]; exact h1)
        hlen1 hwin1 hsnap1 (by rw [hlo, hlt1])
      refine ⟨u', ?_, ?_, Or.inr ?_⟩
      · rw [iterate_ticks_succ solver planO lipmO m u u1 hupd]
        exact hiter
      · rw [ht', hlt1]
      · rw [ho', hlt1]
    · have hlo : u1.left_offset = u.left_offset.add u.left_offset_delta := by
        rw [hlo1, tick_core_left_offset_of_right u rest f0 f1 hsup,
          if_pos hdiff_win, if_neg hsn]
      obtain ⟨u', hiter, ht', ho'⟩ := ih u1 hini1 (by rw [hfs1]; exact h0)
        (by rw [hfs1]; exact h1) hlen1 hwin1
      refine ⟨u', ?_, ?_, ?_⟩
      · rw [iterate_ticks_succ solver planO lipmO m u u1 hupd]
        exact hiter
      · rw [ht', hlt1]
      · rcases ho' with ho' | ho'
        · refine Or.inl ?_
          rw [ho', hlo, hld1, Pose3.addScaled_shift]
          push_cast
          rfl
        · refine Or.inr ?_
          rw [ho', hlt1]

theorem set_goal_left_params (planO : PlanOracle) (lipmO : LipmOracle)
    (gp : Point2q) (go : ℚ) (s : WalkingState) (f0 f1 : FootStep)
    (hi : s.initialized = true)
    (h0 : (set_goal_branch planO gp go s).foot_steps.get? 0 = some f0)
    (hsup : f0.support_foot = SupportFoot.leftFoot)
    (h1 : (set_goal_branch planO gp go s).foot_steps.get? 1 = some f1) :
    ∃ s1, set_goal planO lipmO gp go s = some s1 ∧
      s1.initialized = true ∧
      s1.foot_steps = (set_goal_branch planO gp go s).foot_steps ∧
      s1.com_trajectory = lipmO f0.time (set_goal_branch planO gp go s).foot_steps ∧
      sspStartOf s1 = sspStartOf s ∧
      stepPeriodOf s1 f0 f1 = stepPeriodOf s f0 f1 ∧
      s1.step_frames = s.step_frames ∧
      s1.right_offset = s.right_offset ∧
      s1.right_foot_target =
        (if f1.support_foot = SupportFoot.bothFeet then
          (⟨f1.position.x, f1.position.y, f1.rotation⟩ : Pose3)
        else ⟨f1.position.x, f1.position.y + s.foot_y_offset, f1.rotation⟩) ∧
      s1.right_offset_delta =
        ((if f1.support_foot = SupportFoot.bothFeet then
            (⟨f1.position.x, f1.position.y, f1.rotation⟩ : Pose3)
          else ⟨f1.position.x, f1.position.y + s.foot_y_offset, f1.rotation⟩).sub
          s.right_offset).scaleDiv s.step_frames := by
  obtain ⟨hbi, hbfy, hbsfr, hbts, hbdsp, hbfh, hblu, hbru, hblo, hbro, hbld,
    hbrd, hblt, hbrt, hbka, hbj⟩ :=
    set_goal_branch_only_status_and_queue planO gp go s
  refine ⟨_, set_goal_eq_left planO lipmO gp go s f0 f1 hi h0 hsup h1,
    ?_, rfl, rfl, ?_, ?_, ?_, ?_, ?_, ?_⟩
  · show (set_goal_branch planO gp go s).initialized = true
    rw [hbi]
    exact hi
  · show cround ((set_goal_branch planO gp go s).dsp_duration /
        (2 * (set_goal_branch planO gp go s).time_step)) = sspStartOf s
    rw [hbdsp, hbts]
    rfl
  · show cround ((f1.time - f0.time) / (set_goal_branch planO gp go s).time_step) =
      stepPeriodOf s f0 f1
    rw [hbts]
    rfl
  · exact hbsfr
  · exact hbro
  · show (if f1.support_foot = SupportFoot.bothFeet then
        (⟨f1.position.x, f1.position.y, f1.rotation⟩ : Pose3)
      else ⟨f1.position.x,
        f1.position.y + (set_goal_branch planO gp go s).foot_y_offset,
        f1.rotation⟩) = _
    rw [hbfy]
  · show ((if f1.support_foot = SupportFoot.bothFeet then
        (⟨f1.position.x, f1.position.y, f1.rotation⟩ : Pose3)
      else ⟨f1.position.x,
        f1.position.y + (set_goal_branch planO gp go s).foot_y_offset,
        f1.rotation⟩).sub (set_goal_branch planO gp go s).right_offset).scaleDiv
        (set_goal_branch planO gp go s).step_frames = _
    rw [hbfy, hbro, hbsfr]

theorem set_goal_right_params (planO : PlanOracle) (lipmO : LipmOracle)
    (gp : Point2q) (go : ℚ) (s : WalkingState) (f0 f1 : FootStep)
    (hi : s.initialized = true)
    (h0 : (set_goal_branch planO gp go s).foot_steps.get? 0 = some f0)
    (hsup : f0.support_foot = SupportFoot.rightFoot)
    (h1 : (set_goal_branch planO gp go s).foot_steps.get? 1 = some f1) :
    ∃ s1, set_goal planO lipmO gp go s = some s1 ∧
      s1.initialized = true ∧
      s1.foot_steps = (set_goal_branch planO gp go s).foot_steps ∧
      s1.com_trajectory = lipmO f0.time (set_goal_branch planO gp go s).foot_steps ∧
      sspStartOf s1 = sspStartOf s ∧
      stepPeriodOf s1 f0 f1 = stepPeriodOf s f0 f1 ∧
      s1.step_frames = s.step_frames ∧
      s1.left_offset = s.left_offset ∧
      s1.left_foot_target =
        (if f1.support_foot = SupportFoot.bothFeet then
          (⟨f1.position.x, f1.position.y, f1.rotation⟩ : Pose3)
        else ⟨f1.position.x, f1.position.y - s.foot_y_offset, f1.rotation⟩) ∧
      s1.left_offset_delta =
        ((if f1.support_foot = SupportFoot.bothFeet then
            (⟨f1.position.x, f1.position.y, f1.rotation⟩ : Pose3)
          else ⟨f1.position.x, f1.position.y - s.foot_y_offset, f1.rotation⟩).sub
          s.left_offset).scaleDiv s.step_frames := by
  obtain ⟨hbi, hbfy, hbsfr, hbts, hbdsp, hbfh, hblu, hbru, hblo, hbro, hbld,
    hbrd, hblt, hbrt, hbka, hbj⟩ :=
    set_goal_branch_only_status_and_queue planO gp go s
  refine ⟨_, set_goal_eq_right planO lipmO gp go s f0 f1 hi h0 hsup h1,
    ?_, rfl, rfl, ?_, ?_, ?_, ?_, ?_, ?_⟩
  · show (set_goal_branch planO gp go s).initialized = true
    rw [hbi]
    exact hi
  · show cround ((set_goal_branch planO gp go s).dsp_duration /
        (2 * (set_goal_branch planO gp go s).time_step)) = sspStartOf s
    rw [hbdsp, hbts]
    rfl
  · show cround ((f1.time - f0.time) / (set_goal_branch planO gp go s).time_step) =
      stepPeriodOf s f0 f1
    rw [hbts]
    rfl
  · exact hbsfr
  · exact hblo
  · show (if f1.support_foot = SupportFoot.bothFeet then
        (⟨f1.position.x, f1.position.y, f1.rotation⟩ : Pose3)
      else ⟨f1.position.x,
        f1.position.y - (set_goal_branch planO gp go s).foot_y_offset,
        f1.rotation⟩) = _
    rw [hbfy]
  · show ((if f1.support_foot = SupportFoot.bothFeet then
        (⟨f1.position.x, f1.position.y, f1.rotation⟩ : Pose3)
      else ⟨f1.position.x,
        f1.position.y - (set_goal_branch planO gp go s).foot_y_offset,
        f1.rotation⟩).sub (set_goal_branch planO gp go s).left_offset).scaleDiv
        (set_goal_branch planO gp go s).step_frames = _
    rw [hbfy, hblo, hbsfr]

/-- Claim C1: for every swing-target assignment made by `set_goal`, the
per-frame delta is `(target - current_offset) / step_frames`, and after
exactly `step_frames` further `update_joints` ticks inside the interpolation
window (`diff > ssp_start` on each of them, the footstep pair and support
label unchanged, enough CoM samples pending) the swing foot's offset equals
its target — exactly in rational arithmetic, hence within the claimed 1e-9:
each tick adds the delta, and whenever `diff > ssp_start + 2*ssp_duration`
the snap overwrites the offset with the target, so both regimes land on the
target at tick `step_frames`. -/
theorem spec_c1_offset_convergence (solver : IKSolver) (planO : PlanOracle)
    (lipmO : LipmOracle) (gp : Point2q) (go : ℚ) (s : WalkingState)
    (f0 f1 : FootStep) (n : ℕ) (hi : s.initialized = true)
    (h0 : (set_goal_branch planO gp go s).foot_steps.get? 0 = some f0)
    (h1 : (set_goal_branch planO gp go s).foot_steps.get? 1 = some f1)
    (hn : s.step_frames = (n : ℚ)) (hn0 : 0 < n)
    (hL : n ≤ (lipmO f0.time (set_goal_branch planO gp go s).foot_steps).length)
    (hwin : sspStartOf s < stepPeriodOf s f0 f1 -
      ((lipmO f0.time (set_goal_branch planO gp go s).foot_steps).length : ℚ) + 1) :
    ∃ s1, set_goal planO lipmO gp go s = some s1 ∧
      (f0.support_foot = SupportFoot.leftFoot →
        s1.right_offset_delta =
          (s1.right_foot_target.sub s.right_offset).scaleDiv s.step_frames ∧
        ∃ sn, iterate_ticks solver planO lipmO n s1 = some sn ∧
          sn.right_offset = s1.right_foot_target ∧
          sn.right_foot_target = s1.right_foot_target ∧
          Pose3.withinTol sn.right_offset sn.right_foot_target (1 / 1000000000)) ∧
      (f0.support_foot = SupportFoot.rightFoot →
        s1.left_offset_delta =
          (s1.left_foot_target.sub s.left_offset).scaleDiv s.step_frames ∧
        ∃ sn, iterate_ticks solver planO lipmO n s1 = some sn ∧
          sn.left_offset = s1.left_foot_target ∧
          sn.left_foot_target = s1.left_foot_target ∧
          Pose3.withinTol sn.left_offset sn.left_foot_target (1 / 1000000000)) := by
  have hcast : ((n : ℚ)) ≠ 0 := by
    exact_mod_cast hn0.ne'
  rcases hsf : f0.support_foot with _ | _ | _
  · obtain ⟨s1, hsg, hi1, hfs1, hcom1, hst1, hP1, hsfr1, hro1, hrt1, hrd1⟩ :=
      set_goal_left_params planO lipmO gp go s f0 f1 hi h0 hsf h1
    refine ⟨s1, hsg, ?_, ?_⟩
    · intro _
      refine ⟨by rw [hrd1, hrt1], ?_⟩
      obtain ⟨sn, hiter, htn, hoff⟩ := iterate_moving_right solver planO lipmO
        f0 f1 hsf n s1 hi1 (by rw [hfs1]; exact h0) (by rw [hfs1]; exact h1)
        (by rw [hcom1]; exact hL) (by rw [hst1, hP1, hcom1]; exact hwin)
      have hfinal : sn.right_offset = s1.right_foot_target := by
        rcases hoff with h | h
        · rw [h, hro1, hrd1, hrt1, hn]
          exact Pose3.addScaled_div_self s.right_offset _ (n : ℚ) hcast
        · exact h
      refine ⟨sn, hiter, hfinal, htn, ?_⟩
      rw [hfinal, htn]
      exact Pose3.withinTol_self _ _ (by norm_num)
    · intro h
      exact absurd h (by simp)
  · obtain ⟨s1, hsg, hi1, hfs1, hcom1, hst1, hP1, hsfr1, hlo1, hlt1, hld1⟩ :=
      set_goal_right_params planO lipmO gp go s f0 f1 hi h0 hsf h1
    refine ⟨s1, hsg, ?_, ?_⟩
    · intro h
      exact absurd h (by simp)
    · intro _
      refine ⟨by rw [hld1, hlt1], ?_⟩
      obtain ⟨sn, hiter, htn, hoff⟩ := iterate_moving_left solver planO lipmO
        f0 f1 hsf n s1 hi1 (by rw [hfs1]; exact h0) (by rw [hfs1]; exact h1)
        (by rw [hcom1]; exact hL) (by rw [hst1, hP1, hcom1]; exact hwin)
      have hfinal : sn.left_offset = s1.left_foot_target := by
        rcases hoff with h | h
        · rw [h, hlo1, hld1, hlt1, hn]
          exact Pose3.addScaled_div_self s.left_offset _ (n : ℚ) hcast
        · exact h
      refine ⟨sn, hiter, hfinal, htn, ?_⟩
      rw [hfinal, htn]
      exact Pose3.withinTol_self _ _ (by norm_num)
  · obtain ⟨s', hsg, -, -, -⟩ := set_goal_keeps_status_and_queue planO lipmO
      gp go s hi (by
        obtain ⟨hlt, -⟩ := List.get?_eq_some.1 h1
        omega)
    refine ⟨s', hsg, ?_, ?_⟩
    · intro h
      exact absurd h (by simp)
    · intro h
      exact absurd h (by simp)

/-- A concrete state for the C1 witness: two queued footsteps (left support,
then a BOTH-labelled step at time 1/20), `step_frames = 2`,
`dsp_duration = 1/50`, tick duration 1/100. -/
def stateC1 : WalkingState :=
  { initialWalkingState with
    initialized := true
    step_frames := 2
    dsp_duration := 1 / 50
    foot_steps := [stepLeft0, stepBoth1] }

/-- Witness for C1 at a concrete stop-path `set_goal` followed by two ticks. -/
theorem spec_c1_offset_convergence_witness :
    ∃ s1, set_goal planOracle0 lipmOracle3 ⟨-1, -1⟩ 0 stateC1 = some s1 ∧
      (stepLeft0.support_foot = SupportFoot.leftFoot →
        s1.right_offset_delta =
          (s1.right_foot_target.sub stateC1.right_offset).scaleDiv
            stateC1.step_frames ∧
        ∃ sn, iterate_ticks realSolver planOracle0 lipmOracle3 2 s1 = some sn ∧
          sn.right_offset = s1.right_foot_target ∧
          sn.right_foot_target = s1.right_foot_target ∧
          Pose3.withinTol sn.right_offset sn.right_foot_target (1 / 1000000000)) ∧
      (stepLeft0.support_foot = SupportFoot.rightFoot →
        s1.left_offset_delta =
          (s1.left_foot_target.sub stateC1.left_offset).scaleDiv
            stateC1.step_frames ∧
        ∃ sn, iterate_ticks realSolver planOracle0 lipmOracle3 2 s1 = some sn ∧
          sn.left_offset = s1.left_foot_target ∧
          sn.left_foot_target = s1.left_foot_target ∧
          Pose3.withinTol sn.left_offset sn.left_foot_target (1 / 1000000000)) :=
  spec_c1_offset_convergence realSolver planOracle0 lipmOracle3 ⟨-1, -1⟩ 0
    stateC1 stepLeft0 stepBoth1 2 rfl rfl rfl
    (by norm_num [stateC1])
    (by norm_num)
    (by decide)
    (by norm_num [sspStartOf, stepPeriodOf, cround, stateC1, initialWalkingState,
      stepLeft0, stepBoth1, lipmOracle3])
